import Mathlib

/-!
# PixyBoT_2_Follow1 : behaviour-based control loop (`main.c`)

A shallow embedding of `PixyBoT_2_Follow1/main.c`.  The C program mutates a
global `action`, a `sensor_data` record and three function-local statics, and
talks to the CEENBoT API (`capi324v221.h`).  Here every C function is a function
`World → World`: the world holds those records, the driver-side flags the code
queries, and a `trace` to which every API call is appended in program order.
Besides API calls the trace records the two kinds of access to shared volatile
data that the behaviours perform: writes to the `action` record and reads of the
vision observation buffer `pixy_data`.
-/

namespace PixyBoT

/-! ## Machine integers -/

/-- Value of an integer after conversion to a 16-bit two's complement signed
type (`signed short int`, and `int` on the ATmega324 target of the CEENBoT API). -/
def toShort (v : Int) : Int := (v + 32768) % 65536 - 32768

/-- Value of an `int` expression: `int` is 16 bits wide on the AVR target.  Every
`int` the program computes is finally stored into a `signed short int`, so a
wider `int` gives the same stored values. -/
def toInt (v : Int) : Int := toShort v

/-- Value of an integer after conversion to `unsigned short int`. -/
def toUShort (v : Int) : Nat := (v % 65536).toNat

/-! ## Type declarations (main.c 59-99) -/

/-- The `ROBOT_STATE` enumeration (main.c 64-71). -/
inductive ROBOT_STATE
  | STARTUP
  | CRUISING
  | AVOIDING
  | PIXYFOLLOWING
  deriving DecidableEq, Repr

/-- The `MOTOR_ACTION` structure (main.c 78-86): the speeds are
`signed short int`, the accelerations `unsigned short int`. -/
structure MOTOR_ACTION where
  state : ROBOT_STATE
  speed_L : Int
  speed_R : Int
  accel_L : Nat
  accel_R : Nat
  deriving DecidableEq, Repr

/-- Modelled from the spec: `PIXY_COORD`, the type of `pixy_data.pos`, is declared
in the CEENBoT API header, which is not part of the sources; the spec gives the
centroid as a pair `(x, y)`, the code reads `pos.x` and `pos.y`. -/
structure PIXY_COORD where
  x : Int
  y : Int
  deriving DecidableEq, Repr

/-- Modelled from the spec: the type of `pixy_data.size` (API header); the spec
gives the size as `(w, h)`, the code names the fields `width` and `height`. -/
structure PIXY_SIZE where
  width : Int
  height : Int
  deriving DecidableEq, Repr

/-- Modelled from the spec: `PIXY_DATA` (API header), the vision observation
`{centroid, size, signature}`; the field names are those main.c uses.  The
freshness flag is not a field: the code asks the driver for it
(`PIXY_has_data`). -/
structure PIXY_DATA where
  signum : Int
  pos : PIXY_COORD
  size : PIXY_SIZE
  deriving DecidableEq, Repr

/-- The `SENSOR_DATA` structure (main.c 91-99). -/
structure SENSOR_DATA where
  left_IR : Bool
  right_IR : Bool
  pixy_data : PIXY_DATA
  deriving DecidableEq, Repr

/-- The one field of the API's `TIMEROBJ` that main.c touches: `tc`, the
"interval elapsed" flag the timer service raises. -/
structure TIMEROBJ where
  tc : Bool
  deriving DecidableEq, Repr

/-! ## API constants used as arguments -/

/-- Which stepper an API call addresses (`STEPPER_BOTH` is the only one used). -/
inductive STEPPER_ID
  | STEPPER_LEFT
  | STEPPER_RIGHT
  | STEPPER_BOTH
  deriving DecidableEq, Repr

/-- Direction argument of a stepper move. -/
inductive STEPPER_DIR
  | STEPPER_FWD
  | STEPPER_REV
  deriving DecidableEq, Repr

/-- Brake mode argument of a stepper call. -/
inductive STEPPER_BRK
  | STEPPER_BRK_OFF
  | STEPPER_BRK_ON
  deriving DecidableEq, Repr

/-- The IR sensor a digital read addresses. -/
inductive ATTINY_IR
  | ATTINY_IR_LEFT
  | ATTINY_IR_RIGHT
  deriving DecidableEq, Repr

/-- `DEG_90` (main.c 30): number of steps for a 90-degree in-place turn. -/
def DEG_90 : Nat := 150

/-! ## Effects and the world -/

/-- One observable step of the program: an API call with its arguments, a write
to a field of the shared `action` record, or a read of a field of the shared
observation buffer `pixy_data`. -/
inductive Effect
  | LCD_clear
  | LCD_printf (msg : String)
  | LED_toggle_green
  | TMRSRVC_new_notify_restart (interval_ms : Nat)
  | ATTINY_get_IR_state (which : ATTINY_IR)
  | STEPPER_stop (which : STEPPER_ID) (brk : STEPPER_BRK)
  | STEPPER_move_stwt (which : STEPPER_ID)
      (dir_L : STEPPER_DIR) (steps_L speed_L accel_L : Nat) (brk_L : STEPPER_BRK)
      (dir_R : STEPPER_DIR) (steps_R speed_R accel_R : Nat) (brk_R : STEPPER_BRK)
  | STEPPER_set_accel2 (accel_L accel_R : Nat)
  | STEPPER_runn (speed_L speed_R : Int)
  | PIXY_has_data (result : Bool)
  | PIXY_process_finished
  | read_pixy_pos_x
  | read_pixy_pos_y
  | read_pixy_signum
  | write_state (s : ROBOT_STATE)
  | write_speed_L (v : Int)
  | write_speed_R (v : Int)
  | write_accel_L (v : Nat)
  | write_accel_R (v : Nat)
  deriving DecidableEq, Repr

/-- Everything the functions of main.c read or change. -/
structure World where
  /-- the global `action` (main.c 104) -/
  action : MOTOR_ACTION
  /-- the local `sensor_data` of `CBOT_main` (main.c 482) -/
  sensor_data : SENSOR_DATA
  /-- the static `previous_state` of `info_display` (main.c 135) -/
  previous_state : ROBOT_STATE
  /-- the static `timer_started` of `IR_sense` (main.c 227) -/
  timer_started : Bool
  /-- the static `sense_timer` of `IR_sense` (main.c 234) -/
  sense_timer : TIMEROBJ
  /-- the static `previous_action` of `act` (main.c 456) -/
  previous_action : MOTOR_ACTION
  /-- the vision driver's `has_data` flag, true while an observation is unconsumed -/
  pixy_has_data : Bool
  /-- level of the left IR digital input -/
  IR_left_input : Bool
  /-- level of the right IR digital input -/
  IR_right_input : Bool
  /-- the effects so far, oldest first -/
  trace : List Effect
  deriving DecidableEq, Repr

/-- Append one effect to the trace. -/
def emit (e : Effect) (w : World) : World :=
  { w with trace := w.trace ++ [e] }

/-! ## Stores to the fields of `*pAction` -/

/-- The store `pAction->state = s`. -/
def set_state (s : ROBOT_STATE) (w : World) : World :=
  emit (.write_state s) { w with action := { w.action with state := s } }

/-- The store `pAction->speed_L = v`, converting to `signed short int`. -/
def set_speed_L (v : Int) (w : World) : World :=
  emit (.write_speed_L (toShort v)) { w with action := { w.action with speed_L := toShort v } }

/-- The store `pAction->speed_R = v`, converting to `signed short int`. -/
def set_speed_R (v : Int) (w : World) : World :=
  emit (.write_speed_R (toShort v)) { w with action := { w.action with speed_R := toShort v } }

/-- The store `pAction->accel_L = v`, converting to `unsigned short int`. -/
def set_accel_L (v : Int) (w : World) : World :=
  emit (.write_accel_L (toUShort v)) { w with action := { w.action with accel_L := toUShort v } }

/-- The store `pAction->accel_R = v`, converting to `unsigned short int`. -/
def set_accel_R (v : Int) (w : World) : World :=
  emit (.write_accel_R (toUShort v)) { w with action := { w.action with accel_R := toUShort v } }

/-! ## Macros (main.c 33-50) -/

/-- The initialiser `{ STARTUP, 0, 0, 0, 0 }` of `previous_action` (main.c 456-460),
which is also what `__RESET_ACTION` leaves in a record. -/
def RESET_ACTION_value : MOTOR_ACTION :=
  { state := .STARTUP, speed_L := 0, speed_R := 0, accel_L := 0, accel_R := 0 }

/-- The macro `__RESET_ACTION( action )` (main.c 35-42). -/
def __RESET_ACTION (w : World) : World :=
  set_state .STARTUP (set_accel_R 0 (set_accel_L 0 (set_speed_R 0 (set_speed_L 0 w))))

/-- The macro `__MOTOR_ACTION( *pAction )` (main.c 46-50), the Dispatcher:
`STEPPER_set_accel2` with the acceleration pair, then `STEPPER_runn` with the
speed pair. -/
def __MOTOR_ACTION (w : World) : World :=
  emit (.STEPPER_runn w.action.speed_L w.action.speed_R)
    (emit (.STEPPER_set_accel2 w.action.accel_L w.action.accel_R) w)

/-! ## Convenience functions (main.c 127-217) -/

/-- The function `compare_actions` (main.c 196-217): `rval` starts `TRUE` and
becomes `FALSE` when any of the five field comparisons finds a difference. -/
def compare_actions (a b : MOTOR_ACTION) : Bool :=
  let rval := true
  if a.state != b.state ||
     a.speed_L != b.speed_L ||
     a.speed_R != b.speed_R ||
     a.accel_L != b.accel_L ||
     a.accel_R != b.accel_R then
    false
  else
    rval

/-- The function `info_display` (main.c 128-172).  The `default:` arm of the
switch has no counterpart: `ROBOT_STATE` has only the four named values. -/
def info_display (w : World) : World :=
  if w.action.state ≠ w.previous_state ∨ w.action.state = .STARTUP then
    let w := emit .LCD_clear w
    let w :=
      match w.action.state with
      | .STARTUP => emit (.LCD_printf "Starting...\n") w
      | .CRUISING => emit (.LCD_printf "Exploring...\n") w
      | .AVOIDING => emit (.LCD_printf "Avoiding...\n") w
      | .PIXYFOLLOWING => emit (.LCD_printf "Following...\n") w
    { w with previous_state := w.action.state }
  else
    w

/-! ## Driver calls that return or change something the program depends on -/

/-- The API call `ATTINY_get_IR_state( which )`: the level of that digital input. -/
def ATTINY_get_IR_state (which : ATTINY_IR) (w : World) : Bool × World :=
  (match which with
   | .ATTINY_IR_LEFT => w.IR_left_input
   | .ATTINY_IR_RIGHT => w.IR_right_input,
   emit (.ATTINY_get_IR_state which) w)

/-- Modelled from the spec: the API call `PIXY_has_data()` ("query has new
data"); it returns the freshness flag and changes nothing. -/
def PIXY_has_data (w : World) : Bool × World :=
  (w.pixy_has_data, emit (.PIXY_has_data w.pixy_has_data) w)

/-- Modelled from the spec: the API call `PIXY_process_finished()` ("signal
finished processing"), which clears the `has_data` flag (main.c 355-358). -/
def PIXY_process_finished (w : World) : World :=
  emit .PIXY_process_finished { w with pixy_has_data := false }

/-! ## Top-level behaviours (main.c 219-474) -/

/-- The function `IR_sense` (main.c 220-281). -/
def IR_sense (interval_ms : Nat) (w : World) : World :=
  if w.timer_started = false then
    let w := emit (.TMRSRVC_new_notify_restart interval_ms) w
    { w with timer_started := true }
  else
    if w.sense_timer.tc then
      let w := emit .LED_toggle_green w
      let l := ATTINY_get_IR_state .ATTINY_IR_LEFT w
      let w := { l.2 with sensor_data := { l.2.sensor_data with left_IR := l.1 } }
      let r := ATTINY_get_IR_state .ATTINY_IR_RIGHT w
      let w := { r.2 with sensor_data := { r.2.sensor_data with right_IR := r.1 } }
      { w with sense_timer := { w.sense_timer with tc := false } }
    else
      w

/-- The function `cruise` (main.c 283-295). -/
def cruise (w : World) : World :=
  let w := set_state .CRUISING w
  let w := set_speed_L 100 w
  let w := set_speed_R 100 w
  let w := set_accel_L 400 w
  let w := set_accel_R 400 w
  w

/-- The function `pixy_process` (main.c 297-362).  The initialisers of `coordX`
and `coordY` read `pixy_data.pos.x` and `pixy_data.pos.y` on entry, before
`PIXY_has_data()` is called. -/
def pixy_process (w : World) : World :=
  let base_speed : Int := 100
  let kp : Int := 1
  let centerX : Int := 160
  let centerY : Int := 120
  let w := emit .read_pixy_pos_x w
  let coordX : Int := toInt (w.sensor_data.pixy_data.pos.x - centerX)
  let w := emit .read_pixy_pos_y w
  let _coordY : Int := toInt (w.sensor_data.pixy_data.pos.y - centerY)
  let turn : Int := toInt (kp * coordX)
  let fresh := PIXY_has_data w
  let w := fresh.2
  if fresh.1 then
    let w := set_state .PIXYFOLLOWING w
    let w := emit .read_pixy_signum w
    let w :=
      if w.sensor_data.pixy_data.signum = 1 then
        let w := set_speed_L (toInt (base_speed + turn)) w
        let w := set_speed_R (toInt (base_speed - turn)) w
        w
      else
        w
    PIXY_process_finished w
  else
    w

/-- The function `IR_avoid` (main.c 364-447), its three branches as written. -/
def IR_avoid (w : World) : World :=
  if w.sensor_data.right_IR = true ∧ w.sensor_data.left_IR = true then
    let w := set_state .AVOIDING w
    let w := emit .LCD_clear w
    let w := emit (.LCD_printf "AVOIDING...\n") w
    let w := emit (.STEPPER_stop .STEPPER_BOTH .STEPPER_BRK_OFF) w
    let w := emit (.STEPPER_move_stwt .STEPPER_BOTH
      .STEPPER_REV 250 200 400 .STEPPER_BRK_OFF
      .STEPPER_REV 250 200 400 .STEPPER_BRK_OFF) w
    let w := emit (.STEPPER_move_stwt .STEPPER_BOTH
      .STEPPER_REV DEG_90 200 400 .STEPPER_BRK_OFF
      .STEPPER_FWD DEG_90 200 400 .STEPPER_BRK_OFF) w
    let w := set_state .AVOIDING w
    let w := set_speed_L 200 w
    let w := set_speed_R 200 w
    let w := set_accel_L 400 w
    let w := set_accel_R 400 w
    w
  else if w.sensor_data.left_IR = true then
    let w := set_state .AVOIDING w
    let w := emit .LCD_clear w
    let w := emit (.LCD_printf "AVOIDING...\n") w
    let w := emit (.STEPPER_stop .STEPPER_BOTH .STEPPER_BRK_OFF) w
    let w := emit (.STEPPER_move_stwt .STEPPER_BOTH
      .STEPPER_REV 250 200 400 .STEPPER_BRK_OFF
      .STEPPER_REV 250 200 400 .STEPPER_BRK_OFF) w
    let w := emit (.STEPPER_move_stwt .STEPPER_BOTH
      .STEPPER_REV DEG_90 200 400 .STEPPER_BRK_OFF
      .STEPPER_FWD DEG_90 200 400 .STEPPER_BRK_OFF) w
    let w := set_state .AVOIDING w
    let w := set_speed_L 200 w
    let w := set_speed_R 200 w
    let w := set_accel_L 400 w
    let w := set_accel_R 400 w
    w
  else if w.sensor_data.right_IR = true then
    let w := set_state .AVOIDING w
    let w := emit .LCD_clear w
    let w := emit (.LCD_printf "AVOIDING...\n") w
    let w := emit (.STEPPER_stop .STEPPER_BOTH .STEPPER_BRK_OFF) w
    let w := emit (.STEPPER_move_stwt .STEPPER_BOTH
      .STEPPER_REV 250 200 400 .STEPPER_BRK_OFF
      .STEPPER_REV 250 200 400 .STEPPER_BRK_OFF) w
    let w := emit (.STEPPER_move_stwt .STEPPER_BOTH
      .STEPPER_REV DEG_90 200 400 .STEPPER_BRK_OFF
      .STEPPER_FWD DEG_90 200 400 .STEPPER_BRK_OFF) w
    let w := set_state .AVOIDING w
    let w := set_speed_L 200 w
    let w := set_speed_R 200 w
    let w := set_accel_L 400 w
    let w := set_accel_R 400 w
    w
  else
    w

/-- The function `act` (main.c 449-474), the ActionGate. -/
def act (w : World) : World :=
  if compare_actions w.action w.previous_action = false then
    let w := __MOTOR_ACTION w
    { w with previous_action := w.action }
  else
    w

/-- One pass of the `while( 1 )` body of `CBOT_main` (main.c 534-553): `IR_sense`
every 125 ms, the one behaviour that is not commented out, `act`, then
`info_display`. -/
def CBOT_main_cycle (w : World) : World :=
  info_display (act (pixy_process (IR_sense 125 w)))

/-! ## Reading a trace -/

/-- The actuator (stepper driver) calls among the effects. -/
def Effect.isActuatorCall : Effect → Bool
  | .STEPPER_stop _ _ => true
  | .STEPPER_move_stwt _ _ _ _ _ _ _ _ _ _ _ => true
  | .STEPPER_set_accel2 _ _ => true
  | .STEPPER_runn _ _ => true
  | _ => false

/-- The reads of a field of the observation buffer among the effects. -/
def Effect.isObservationRead : Effect → Bool
  | .read_pixy_pos_x => true
  | .read_pixy_pos_y => true
  | .read_pixy_signum => true
  | _ => false

/-- Number of Dispatcher invocations in a trace: each run of `__MOTOR_ACTION`
makes exactly one `STEPPER_runn` call, and nothing else in main.c makes one. -/
def dispatch_count (t : List Effect) : Nat :=
  t.countP fun e => match e with
    | .STEPPER_runn _ _ => true
    | _ => false

/-- The effects a run `f` adds to the trace of `w`. -/
def effects_of (f : World → World) (w : World) : List Effect :=
  (f w).trace.drop w.trace.length

/-! ## Sample worlds -/

/-- The world on entry to the control loop: `action` just reset, every static
at its initialiser, no observation pending, nothing traced yet. -/
def loop_entry_world : World :=
  { action := RESET_ACTION_value
    sensor_data :=
      { left_IR := false, right_IR := false,
        pixy_data := { signum := 0, pos := { x := 0, y := 0 }, size := { width := 0, height := 0 } } }
    previous_state := .STARTUP
    timer_started := false
    sense_timer := { tc := false }
    previous_action := RESET_ACTION_value
    pixy_has_data := false
    IR_left_input := false
    IR_right_input := false
    trace := [] }

/-- The loop-entry world with the proposed action replaced by `a`. -/
def world_proposing (a : MOTOR_ACTION) : World :=
  { loop_entry_world with action := a }

/-- The loop-entry world with prior action `a` and a vision observation of
signature `sig` and centroid `(x, y)` whose freshness flag is `fresh`. -/
def world_observing (a : MOTOR_ACTION) (sig x y : Int) (fresh : Bool) : World :=
  { loop_entry_world with
    action := a
    sensor_data :=
      { left_IR := false, right_IR := false,
        pixy_data := { signum := sig, pos := { x := x, y := y }, size := { width := 30, height := 20 } } }
    pixy_has_data := fresh }

/-- The loop-entry world with prior action `a` and IR snapshot `(l, r)`. -/
def world_sensing (a : MOTOR_ACTION) (l r : Bool) : World :=
  { loop_entry_world with
    action := a
    sensor_data := { loop_entry_world.sensor_data with left_IR := l, right_IR := r } }

/-- A world in the middle of a run: timer armed and its interval elapsed, the
left IR input high, a fresh observation of signature `sig` at `(x, y)`, prior
action `a`. -/
def world_tripped_and_fresh (a : MOTOR_ACTION) (sig x y : Int) : World :=
  { world_observing a sig x y true with
    timer_started := true
    sense_timer := { tc := true }
    IR_left_input := true }

/-! ## Variants used to state the behaviour claims -/

/-- The statements every branch of `IR_avoid` consists of (main.c 372-393,
398-419 and 424-445 are the same text), written once. -/
def avoid_sequence (w : World) : World :=
  let w := set_state .AVOIDING w
  let w := emit .LCD_clear w
  let w := emit (.LCD_printf "AVOIDING...\n") w
  let w := emit (.STEPPER_stop .STEPPER_BOTH .STEPPER_BRK_OFF) w
  let w := emit (.STEPPER_move_stwt .STEPPER_BOTH
    .STEPPER_REV 250 200 400 .STEPPER_BRK_OFF
    .STEPPER_REV 250 200 400 .STEPPER_BRK_OFF) w
  let w := emit (.STEPPER_move_stwt .STEPPER_BOTH
    .STEPPER_REV DEG_90 200 400 .STEPPER_BRK_OFF
    .STEPPER_FWD DEG_90 200 400 .STEPPER_BRK_OFF) w
  let w := set_state .AVOIDING w
  let w := set_speed_L 200 w
  let w := set_speed_R 200 w
  let w := set_accel_L 400 w
  let w := set_accel_R 400 w
  w

/-- The single-branch version of `IR_avoid` the specification describes: the
ballistic sequence guarded by "at least one IR is tripped". -/
def IR_avoid_single_branch (w : World) : World :=
  if w.sensor_data.left_IR = true ∨ w.sensor_data.right_IR = true then
    avoid_sequence w
  else
    w

/-- Which arm of the `if` / `else if` / `else if` chain of `IR_avoid` (main.c
370, 396, 422) is entered: 1, 2 or 3, or none. -/
def IR_avoid_branch (w : World) : Option Nat :=
  if w.sensor_data.right_IR = true ∧ w.sensor_data.left_IR = true then
    some 1
  else if w.sensor_data.left_IR = true then
    some 2
  else if w.sensor_data.right_IR = true then
    some 3
  else
    none

/-- The world with the IR snapshot set to `(l, r)`. -/
def with_IR (l r : Bool) (w : World) : World :=
  { w with sensor_data := { w.sensor_data with left_IR := l, right_IR := r } }

/-- The three behaviour calls in the order in which `CBOT_main` lists them
(main.c 541-543): `cruise`, then `pixy_process`, then `IR_avoid`.  In the source
the first and the third call are commented out. -/
def behaviours_in_listed_order (w : World) : World :=
  IR_avoid (pixy_process (cruise w))

/-- The text `info_display` prints for a state (the arms of the switch, main.c
146-160). -/
def state_message : ROBOT_STATE → String
  | .STARTUP => "Starting...\n"
  | .CRUISING => "Exploring...\n"
  | .AVOIDING => "Avoiding...\n"
  | .PIXYFOLLOWING => "Following...\n"

/-- The behaviour functions of main.c. -/
inductive Behaviour
  | cruise
  | pixy_process
  | IR_avoid
  deriving DecidableEq, Repr

/-- Calling a behaviour. -/
def Behaviour.call : Behaviour → World → World
  | .cruise => PixyBoT.cruise
  | .pixy_process => PixyBoT.pixy_process
  | .IR_avoid => PixyBoT.IR_avoid

/-- Whether a behaviour fires in a world: `cruise` always, `pixy_process` when
`PIXY_has_data()` is true, `IR_avoid` when an IR of the snapshot is tripped. -/
def Behaviour.fires : Behaviour → World → Bool
  | .cruise, _ => true
  | .pixy_process, w => w.pixy_has_data
  | .IR_avoid, w => w.sensor_data.left_IR || w.sensor_data.right_IR

/-- Calling a finite sequence of behaviours, in the order of the list. -/
def call_behaviours (bs : List Behaviour) (w : World) : World :=
  bs.foldl (fun v b => b.call v) w

/-! ## The gate fed with a sequence of proposals -/

/-- One step of a run of the gate: the action `a` is proposed and `act` called. -/
def propose (a : MOTOR_ACTION) (w : World) : World :=
  act { w with action := a }

/-- The gate fed with the proposals `as`, first to last. -/
def feed (as : List MOTOR_ACTION) (w : World) : World :=
  as.foldl (fun v a => propose a v) w

/-- Those proposals of a sequence that differ from their predecessor, `prev`
being the predecessor of the first. -/
def changed_actions : MOTOR_ACTION → List MOTOR_ACTION → List MOTOR_ACTION
  | _, [] => []
  | prev, a :: rest =>
    if a = prev then changed_actions a rest else a :: changed_actions a rest

/-- The Dispatcher calls for a list of actions: for each, `STEPPER_set_accel2`
then `STEPPER_runn`. -/
def dispatch_effects : List MOTOR_ACTION → List Effect
  | [] => []
  | a :: rest =>
    .STEPPER_set_accel2 a.accel_L a.accel_R :: .STEPPER_runn a.speed_L a.speed_R ::
      dispatch_effects rest

/-- The last action of the sequence `a0, a1, ..., an`: `a0` when no action
has been proposed. -/
def last_proposal : MOTOR_ACTION → List MOTOR_ACTION → MOTOR_ACTION
  | a0, [] => a0
  | _, a :: rest => last_proposal a rest

/-! ## The environment and runs of the loop -/

/-- What the drivers hold when the program looks next: the timer's elapsed
flag, the two IR input levels, the content of the observation buffer and the
`has_data` flag.  No assumption is made on how they evolve. -/
structure Inputs where
  timer_tc : Bool
  IR_left : Bool
  IR_right : Bool
  pixy_data : PIXY_DATA
  pixy_has_data : Bool
  deriving DecidableEq, Repr

/-- The drivers acting between two calls of the program: they set the state
they own and touch nothing else. -/
def environment (i : Inputs) (w : World) : World :=
  { w with
    sense_timer := { w.sense_timer with tc := i.timer_tc }
    IR_left_input := i.IR_left
    IR_right_input := i.IR_right
    sensor_data := { w.sensor_data with pixy_data := i.pixy_data }
    pixy_has_data := i.pixy_has_data }

/-- A sequence of `IR_sense` calls, each with its interval argument and
preceded by whatever the drivers did meanwhile. -/
def IR_sense_calls (calls : List (Inputs × Nat)) (w : World) : World :=
  calls.foldl (fun v c => IR_sense c.2 (environment c.1 v)) w

/-- Number of times the sense timer is armed in a trace. -/
def arm_count (t : List Effect) : Nat :=
  t.countP fun e => match e with
    | .TMRSRVC_new_notify_restart _ => true
    | _ => false

/-- The call of the loop body (main.c 534-553) that comes next. -/
inductive LoopPoint
  | at_IR_sense
  | at_pixy_process
  | at_act
  | at_info_display
  deriving DecidableEq, Repr

/-- One call of the loop body, preceded by whatever the drivers did meanwhile:
`IR_sense( &sensor_data, 125 )`, `pixy_process`, `act`, `info_display`, and
round again. -/
def loop_step (i : Inputs) (s : LoopPoint × World) : LoopPoint × World :=
  match s.1 with
  | .at_IR_sense => (.at_pixy_process, IR_sense 125 (environment i s.2))
  | .at_pixy_process => (.at_act, pixy_process (environment i s.2))
  | .at_act => (.at_info_display, act (environment i s.2))
  | .at_info_display => (.at_IR_sense, info_display (environment i s.2))

/-- The loop run for as many calls as there are inputs. -/
def loop_run (is : List Inputs) (s : LoopPoint × World) : LoopPoint × World :=
  is.foldl (fun t i => loop_step i t) s

/-- `CBOT_main` from `__RESET_ACTION( action )` (main.c 515) to the point
reached after `is.length` calls of the loop body. -/
def CBOT_main_run (is : List Inputs) (w : World) : LoopPoint × World :=
  loop_run is (.at_IR_sense, __RESET_ACTION w)

/-- An effect that leaves the accelerations alone: not a write of `accel_L` or
`accel_R`, and, if it is the Dispatcher's `STEPPER_set_accel2`, one with the
pair (0, 0). -/
def Effect.accel_quiet : Effect → Bool
  | .write_accel_L _ => false
  | .write_accel_R _ => false
  | .STEPPER_set_accel2 aL aR => aL == 0 && aR == 0
  | _ => true

/-- The invariant of the loop as written, relative to the trace `base` at loop
entry: both accelerations are 0, the state is `STARTUP` or `PIXYFOLLOWING`, and
every effect since loop entry leaves the accelerations alone. -/
def accel_invariant (base : List Effect) (w : World) : Prop :=
  w.action.accel_L = 0 ∧ w.action.accel_R = 0 ∧
  (w.action.state = .STARTUP ∨ w.action.state = .PIXYFOLLOWING) ∧
  ∃ l : List Effect, w.trace = base ++ l ∧ ∀ e ∈ l, e.accel_quiet = true

/-! ## Lemmas shared by the proofs -/

theorem toShort_of_fits (v : Int) (hlo : -32768 ≤ v) (hhi : v ≤ 32767) : toShort v = v := by
  unfold toShort
  omega

theorem toShort_follow_left (x : Int) :
    toShort (toInt (100 + toInt (1 * toInt (x - 160)))) = toShort (100 + (x - 160)) := by
  simp only [toInt, toShort]
  omega

theorem toShort_follow_right (x : Int) :
    toShort (toInt (100 - toInt (1 * toInt (x - 160)))) = toShort (100 - (x - 160)) := by
  simp only [toInt, toShort]
  omega

theorem MOTOR_ACTION_eq_of_fields (a b : MOTOR_ACTION) (hst : a.state = b.state)
    (hsL : a.speed_L = b.speed_L) (hsR : a.speed_R = b.speed_R)
    (haL : a.accel_L = b.accel_L) (haR : a.accel_R = b.accel_R) : a = b := by
  cases a
  cases b
  simp_all

theorem MOTOR_ACTION_eq_iff_fields (a b : MOTOR_ACTION) :
    a = b ↔
      (a.state = b.state ∧ a.speed_L = b.speed_L ∧ a.speed_R = b.speed_R ∧
        a.accel_L = b.accel_L ∧ a.accel_R = b.accel_R) := by
  cases a
  cases b
  simp

theorem compare_actions_eq_true (a b : MOTOR_ACTION) : compare_actions a b = true ↔ a = b := by
  cases a
  cases b
  simp only [compare_actions, MOTOR_ACTION.mk.injEq]
  simp only [bne_iff_ne, Bool.or_eq_true, ne_eq, Bool.if_false_left, Bool.and_true,
    Bool.not_eq_true', decide_eq_false_iff_not, not_or, not_not]
  tauto

theorem compare_actions_eq_false (a b : MOTOR_ACTION) : compare_actions a b = false ↔ a ≠ b := by
  rw [Ne, ← compare_actions_eq_true]
  cases compare_actions a b <;> simp

theorem act_of_ne (w : World) (h : w.action ≠ w.previous_action) :
    act w =
      { w with
        previous_action := w.action
        trace := w.trace ++ [.STEPPER_set_accel2 w.action.accel_L w.action.accel_R,
                             .STEPPER_runn w.action.speed_L w.action.speed_R] } := by
  have hc : compare_actions w.action w.previous_action = false :=
    (compare_actions_eq_false _ _).2 h
  simp [act, hc, __MOTOR_ACTION, emit]

theorem act_of_eq (w : World) (h : w.action = w.previous_action) : act w = w := by
  have hc : compare_actions w.action w.previous_action = true :=
    (compare_actions_eq_true _ _).2 h
  simp [act, hc]

theorem pixy_process_of_stale (w : World) (hf : w.pixy_has_data = false) :
    pixy_process w =
      { w with
        trace := w.trace ++ [.read_pixy_pos_x, .read_pixy_pos_y, .PIXY_has_data false] } := by
  simp [pixy_process, PIXY_has_data, emit, hf]

theorem pixy_process_of_fresh_other (w : World) (hf : w.pixy_has_data = true)
    (hs : w.sensor_data.pixy_data.signum ≠ 1) :
    pixy_process w =
      { w with
        action := { w.action with state := .PIXYFOLLOWING }
        pixy_has_data := false
        trace := w.trace ++ [.read_pixy_pos_x, .read_pixy_pos_y, .PIXY_has_data true,
                             .write_state .PIXYFOLLOWING, .read_pixy_signum,
                             .PIXY_process_finished] } := by
  simp [pixy_process, PIXY_has_data, PIXY_process_finished, set_state, emit, hf, hs]

theorem pixy_process_of_fresh_match (w : World) (hf : w.pixy_has_data = true)
    (hs : w.sensor_data.pixy_data.signum = 1) :
    pixy_process w =
      { w with
        action :=
          { w.action with
            state := .PIXYFOLLOWING
            speed_L := toShort (100 + (w.sensor_data.pixy_data.pos.x - 160))
            speed_R := toShort (100 - (w.sensor_data.pixy_data.pos.x - 160)) }
        pixy_has_data := false
        trace := w.trace ++ [.read_pixy_pos_x, .read_pixy_pos_y, .PIXY_has_data true,
                             .write_state .PIXYFOLLOWING, .read_pixy_signum,
                             .write_speed_L (toShort (100 + (w.sensor_data.pixy_data.pos.x - 160))),
                             .write_speed_R (toShort (100 - (w.sensor_data.pixy_data.pos.x - 160))),
                             .PIXY_process_finished] } := by
  have hL := toShort_follow_left w.sensor_data.pixy_data.pos.x
  have hR := toShort_follow_right w.sensor_data.pixy_data.pos.x
  rw [one_mul] at hL hR
  simp [pixy_process, PIXY_has_data, PIXY_process_finished, set_state, set_speed_L, set_speed_R,
    emit, hf, hs, hL, hR]

theorem effects_of_append (f : World → World) (w : World) (l : List Effect)
    (h : (f w).trace = w.trace ++ l) : effects_of f w = l := by
  simp [effects_of, h]

theorem IR_avoid_of_tripped (w : World)
    (h : w.sensor_data.left_IR = true ∨ w.sensor_data.right_IR = true) :
    IR_avoid w =
      { w with
        action :=
          { state := .AVOIDING, speed_L := 200, speed_R := 200, accel_L := 400, accel_R := 400 }
        trace := w.trace ++
          [.write_state .AVOIDING, .LCD_clear, .LCD_printf "AVOIDING...\n",
           .STEPPER_stop .STEPPER_BOTH .STEPPER_BRK_OFF,
           .STEPPER_move_stwt .STEPPER_BOTH .STEPPER_REV 250 200 400 .STEPPER_BRK_OFF
             .STEPPER_REV 250 200 400 .STEPPER_BRK_OFF,
           .STEPPER_move_stwt .STEPPER_BOTH .STEPPER_REV 150 200 400 .STEPPER_BRK_OFF
             .STEPPER_FWD 150 200 400 .STEPPER_BRK_OFF,
           .write_state .AVOIDING, .write_speed_L 200, .write_speed_R 200,
           .write_accel_L 400, .write_accel_R 400] } := by
  have h200 : toShort 200 = 200 := by decide
  have h400 : toUShort 400 = 400 := by decide
  cases hl : w.sensor_data.left_IR <;> cases hr : w.sensor_data.right_IR <;>
    simp [IR_avoid, set_state, set_speed_L, set_speed_R, set_accel_L, set_accel_R, emit,
      DEG_90, hl, hr, h200, h400] at h ⊢

theorem IR_avoid_of_clear (w : World) (hl : w.sensor_data.left_IR = false)
    (hr : w.sensor_data.right_IR = false) : IR_avoid w = w := by
  simp [IR_avoid, hl, hr]

theorem avoid_sequence_eq (w : World) :
    avoid_sequence w =
      { w with
        action :=
          { state := .AVOIDING, speed_L := 200, speed_R := 200, accel_L := 400, accel_R := 400 }
        trace := w.trace ++
          [.write_state .AVOIDING, .LCD_clear, .LCD_printf "AVOIDING...\n",
           .STEPPER_stop .STEPPER_BOTH .STEPPER_BRK_OFF,
           .STEPPER_move_stwt .STEPPER_BOTH .STEPPER_REV 250 200 400 .STEPPER_BRK_OFF
             .STEPPER_REV 250 200 400 .STEPPER_BRK_OFF,
           .STEPPER_move_stwt .STEPPER_BOTH .STEPPER_REV 150 200 400 .STEPPER_BRK_OFF
             .STEPPER_FWD 150 200 400 .STEPPER_BRK_OFF,
           .write_state .AVOIDING, .write_speed_L 200, .write_speed_R 200,
           .write_accel_L 400, .write_accel_R 400] } := by
  have h200 : toShort 200 = 200 := by decide
  have h400 : toUShort 400 = 400 := by decide
  simp [avoid_sequence, set_state, set_speed_L, set_speed_R, set_accel_L, set_accel_R, emit,
    DEG_90, h200, h400]

theorem cruise_eq (w : World) :
    cruise w =
      { w with
        action :=
          { state := .CRUISING, speed_L := 100, speed_R := 100, accel_L := 400, accel_R := 400 }
        trace := w.trace ++
          [.write_state .CRUISING, .write_speed_L 100, .write_speed_R 100,
           .write_accel_L 400, .write_accel_R 400] } := by
  have h100 : toShort 100 = 100 := by decide
  have h400 : toUShort 400 = 400 := by decide
  simp [cruise, set_state, set_speed_L, set_speed_R, set_accel_L, set_accel_R, emit, h100, h400]

theorem RESET_ACTION_eq (w : World) :
    __RESET_ACTION w =
      { w with
        action := RESET_ACTION_value
        trace := w.trace ++
          [.write_speed_L 0, .write_speed_R 0, .write_accel_L 0, .write_accel_R 0,
           .write_state .STARTUP] } := by
  have h0 : toShort 0 = 0 := by decide
  have hu : toUShort 0 = 0 := by decide
  simp [__RESET_ACTION, RESET_ACTION_value, set_state, set_speed_L, set_speed_R, set_accel_L,
    set_accel_R, emit, h0, hu]

theorem IR_sense_of_first (ms : Nat) (w : World) (h : w.timer_started = false) :
    IR_sense ms w =
      { w with
        timer_started := true
        trace := w.trace ++ [.TMRSRVC_new_notify_restart ms] } := by
  simp [IR_sense, h, emit]

theorem IR_sense_of_elapsed (ms : Nat) (w : World) (h : w.timer_started = true)
    (htc : w.sense_timer.tc = true) :
    IR_sense ms w =
      { w with
        sensor_data :=
          { w.sensor_data with left_IR := w.IR_left_input, right_IR := w.IR_right_input }
        sense_timer := { w.sense_timer with tc := false }
        trace := w.trace ++ [.LED_toggle_green, .ATTINY_get_IR_state .ATTINY_IR_LEFT,
                             .ATTINY_get_IR_state .ATTINY_IR_RIGHT] } := by
  simp [IR_sense, h, htc, emit, ATTINY_get_IR_state]

theorem IR_sense_of_waiting (ms : Nat) (w : World) (h : w.timer_started = true)
    (htc : w.sense_timer.tc = false) : IR_sense ms w = w := by
  simp [IR_sense, h, htc]

theorem info_display_of_redraw (w : World)
    (h : w.action.state ≠ w.previous_state ∨ w.action.state = .STARTUP) :
    info_display w =
      { w with
        previous_state := w.action.state
        trace := w.trace ++ [.LCD_clear, .LCD_printf (state_message w.action.state)] } := by
  simp only [info_display, if_pos h]
  cases hs : w.action.state <;> simp [emit, hs, state_message]

theorem info_display_of_same (w : World) (h1 : w.action.state = w.previous_state)
    (h2 : w.action.state ≠ .STARTUP) : info_display w = w := by
  have h : ¬ (w.action.state ≠ w.previous_state ∨ w.action.state = .STARTUP) := by
    simp [h1, h2]
    rw [← h1]
    exact h2
  simp only [info_display, if_neg h]

theorem IR_sense_started_step (ms : Nat) (i : Inputs) (w : World) (h : w.timer_started = true) :
    ∃ l : List Effect,
      (IR_sense ms (environment i w)).trace = w.trace ++ l ∧ arm_count l = 0 ∧
      (IR_sense ms (environment i w)).timer_started = true := by
  have he : (environment i w).timer_started = true := h
  cases htc : (environment i w).sense_timer.tc
  · refine ⟨[], ?_, rfl, ?_⟩
    · rw [IR_sense_of_waiting ms _ he htc]
      simp [environment]
    · rw [IR_sense_of_waiting ms _ he htc]
      exact he
  · refine ⟨[.LED_toggle_green, .ATTINY_get_IR_state .ATTINY_IR_LEFT,
      .ATTINY_get_IR_state .ATTINY_IR_RIGHT], ?_, by decide, ?_⟩
    · rw [IR_sense_of_elapsed ms _ he htc]
      simp [environment]
    · rw [IR_sense_of_elapsed ms _ he htc]
      exact he

theorem IR_sense_calls_started (calls : List (Inputs × Nat)) :
    ∀ w : World, w.timer_started = true →
      ∃ l : List Effect,
        (IR_sense_calls calls w).trace = w.trace ++ l ∧ arm_count l = 0 ∧
        (IR_sense_calls calls w).timer_started = true := by
  induction calls with
  | nil =>
    intro w h
    exact ⟨[], by simp [IR_sense_calls], rfl, h⟩
  | cons c rest ih =>
    intro w h
    obtain ⟨l1, ht1, ha1, hs1⟩ := IR_sense_started_step c.2 c.1 w h
    obtain ⟨l2, ht2, ha2, hs2⟩ := ih (IR_sense c.2 (environment c.1 w)) hs1
    refine ⟨l1 ++ l2, ?_, ?_, ?_⟩
    · have : IR_sense_calls (c :: rest) w =
          IR_sense_calls rest (IR_sense c.2 (environment c.1 w)) := rfl
      rw [this, ht2, ht1, List.append_assoc]
    · simp only [arm_count] at ha1 ha2 ⊢
      rw [List.countP_append, ha1, ha2]
    · exact hs2

theorem pixy_process_sensor_data (w : World) : (pixy_process w).sensor_data = w.sensor_data := by
  cases hf : w.pixy_has_data
  · rw [pixy_process_of_stale w hf]
  · by_cases hs : w.sensor_data.pixy_data.signum = 1
    · rw [pixy_process_of_fresh_match w hf hs]
    · rw [pixy_process_of_fresh_other w hf hs]

theorem pixy_process_after_cruise (w : World) :
    (pixy_process (cruise w)).action =
      (if w.pixy_has_data = true then
        if w.sensor_data.pixy_data.signum = 1 then
          { state := .PIXYFOLLOWING
            speed_L := toShort (100 + (w.sensor_data.pixy_data.pos.x - 160))
            speed_R := toShort (100 - (w.sensor_data.pixy_data.pos.x - 160))
            accel_L := 400, accel_R := 400 }
        else
          { state := .PIXYFOLLOWING, speed_L := 100, speed_R := 100, accel_L := 400,
            accel_R := 400 }
      else
        { state := .CRUISING, speed_L := 100, speed_R := 100, accel_L := 400, accel_R := 400 }) := by
  have hc := cruise_eq w
  have hfl : (cruise w).pixy_has_data = w.pixy_has_data := by rw [hc]
  have hsd : (cruise w).sensor_data = w.sensor_data := by rw [hc]
  have hact : (cruise w).action =
      { state := .CRUISING, speed_L := 100, speed_R := 100, accel_L := 400, accel_R := 400 } := by
    rw [hc]
  cases hf : w.pixy_has_data
  · rw [pixy_process_of_stale _ (hfl.trans hf)]
    simp [hact]
  · by_cases hs : w.sensor_data.pixy_data.signum = 1
    · rw [pixy_process_of_fresh_match _ (hfl.trans hf) (by rw [hsd]; exact hs)]
      simp [hact, hs, hsd]
    · rw [pixy_process_of_fresh_other _ (hfl.trans hf) (by rw [hsd]; exact hs)]
      simp [hact, hs]

theorem IR_sense_action (ms : Nat) (w : World) : (IR_sense ms w).action = w.action := by
  cases hs : w.timer_started
  · rw [IR_sense_of_first ms w hs]
  · cases htc : w.sense_timer.tc
    · rw [IR_sense_of_waiting ms w hs htc]
    · rw [IR_sense_of_elapsed ms w hs htc]

theorem pixy_process_action_with_IR (l r : Bool) (w : World) :
    (pixy_process (with_IR l r w)).action = (pixy_process w).action := by
  cases hf : w.pixy_has_data
  · rw [pixy_process_of_stale w hf, pixy_process_of_stale (with_IR l r w) hf]
    rfl
  · by_cases hs : w.sensor_data.pixy_data.signum = 1
    · rw [pixy_process_of_fresh_match w hf hs, pixy_process_of_fresh_match (with_IR l r w) hf hs]
      rfl
    · rw [pixy_process_of_fresh_other w hf hs, pixy_process_of_fresh_other (with_IR l r w) hf hs]
      rfl

theorem behaviours_in_listed_order_action (w : World) :
    (behaviours_in_listed_order w).action =
      (if w.sensor_data.left_IR = true ∨ w.sensor_data.right_IR = true then
        { state := .AVOIDING, speed_L := 200, speed_R := 200, accel_L := 400, accel_R := 400 }
      else if w.pixy_has_data = true then
        if w.sensor_data.pixy_data.signum = 1 then
          { state := .PIXYFOLLOWING
            speed_L := toShort (100 + (w.sensor_data.pixy_data.pos.x - 160))
            speed_R := toShort (100 - (w.sensor_data.pixy_data.pos.x - 160))
            accel_L := 400, accel_R := 400 }
        else
          { state := .PIXYFOLLOWING, speed_L := 100, speed_R := 100, accel_L := 400,
            accel_R := 400 }
      else
        { state := .CRUISING, speed_L := 100, speed_R := 100, accel_L := 400, accel_R := 400 }) := by
  have hsd : (pixy_process (cruise w)).sensor_data = w.sensor_data := by
    rw [pixy_process_sensor_data, cruise_eq]
  unfold behaviours_in_listed_order
  by_cases htr : w.sensor_data.left_IR = true ∨ w.sensor_data.right_IR = true
  · rw [IR_avoid_of_tripped _ (by rw [hsd]; exact htr), if_pos htr]
  · rw [if_neg htr]
    rw [not_or] at htr
    have hl : w.sensor_data.left_IR = false := by simpa using htr.1
    have hr : w.sensor_data.right_IR = false := by simpa using htr.2
    rw [IR_avoid_of_clear _ (by rw [hsd]; exact hl) (by rw [hsd]; exact hr)]
    exact pixy_process_after_cruise w

theorem propose_of_eq (a : MOTOR_ACTION) (w : World) (h : a = w.previous_action) :
    propose a w = { w with action := a } := by
  unfold propose
  exact act_of_eq _ h

theorem propose_of_ne (a : MOTOR_ACTION) (w : World) (h : a ≠ w.previous_action) :
    propose a w =
      { w with
        action := a
        previous_action := a
        trace := w.trace ++ [.STEPPER_set_accel2 a.accel_L a.accel_R,
                             .STEPPER_runn a.speed_L a.speed_R] } := by
  unfold propose
  exact act_of_ne _ h

theorem propose_previous_action (a : MOTOR_ACTION) (w : World) :
    (propose a w).previous_action = a := by
  by_cases h : a = w.previous_action
  · rw [propose_of_eq a w h]
    exact h.symm
  · rw [propose_of_ne a w h]

theorem feed_trace (as : List MOTOR_ACTION) :
    ∀ w : World,
      (feed as w).trace = w.trace ++ dispatch_effects (changed_actions w.previous_action as) := by
  induction as with
  | nil =>
    intro w
    simp [feed, changed_actions, dispatch_effects]
  | cons a rest ih =>
    intro w
    have hstep : feed (a :: rest) w = feed rest (propose a w) := rfl
    rw [hstep, ih, propose_previous_action]
    by_cases h : a = w.previous_action
    · rw [propose_of_eq a w h]
      simp [changed_actions, h]
    · rw [propose_of_ne a w h]
      simp [changed_actions, h, dispatch_effects]

theorem feed_previous_action (as : List MOTOR_ACTION) :
    ∀ w : World, (feed as w).previous_action = last_proposal w.previous_action as := by
  induction as with
  | nil =>
    intro w
    rfl
  | cons a rest ih =>
    intro w
    have hstep : feed (a :: rest) w = feed rest (propose a w) := rfl
    rw [hstep, ih, propose_previous_action]
    rfl

theorem feed_snoc (pre : List MOTOR_ACTION) (a : MOTOR_ACTION) (w : World) :
    feed (pre ++ [a]) w = propose a (feed pre w) := by
  simp [feed, List.foldl_append]

theorem dispatch_count_dispatch_effects (l : List MOTOR_ACTION) :
    dispatch_count (dispatch_effects l) = l.length := by
  induction l with
  | nil => rfl
  | cons a rest ih =>
    simp only [dispatch_count] at ih
    simp [dispatch_effects, dispatch_count, List.countP_cons, ih]

theorem changed_actions_chain (as : List MOTOR_ACTION) :
    ∀ prev : MOTOR_ACTION, List.Chain (fun x y => x ≠ y) prev (changed_actions prev as) := by
  induction as with
  | nil =>
    intro prev
    exact List.Chain.nil
  | cons a rest ih =>
    intro prev
    by_cases h : a = prev
    · have hc : changed_actions prev (a :: rest) = changed_actions a rest := by
        simp [changed_actions, h]
      rw [hc]
      rw [← h]
      exact ih a
    · have hc : changed_actions prev (a :: rest) = a :: changed_actions a rest := by
        simp [changed_actions, h]
      rw [hc]
      exact List.Chain.cons (fun e => h e.symm) (ih a)

theorem accel_invariant_extend (base : List Effect) (v w : World) (l : List Effect)
    (hv : accel_invariant base v) (ht : w.trace = v.trace ++ l)
    (hq : ∀ e ∈ l, e.accel_quiet = true)
    (haL : w.action.accel_L = v.action.accel_L) (haR : w.action.accel_R = v.action.accel_R)
    (hst : w.action.state = v.action.state ∨ w.action.state = .PIXYFOLLOWING) :
    accel_invariant base w := by
  obtain ⟨h1, h2, h3, l0, hl0, hq0⟩ := hv
  refine ⟨haL.trans h1, haR.trans h2, ?_, l0 ++ l, ?_, ?_⟩
  · rcases hst with h | h
    · rw [h]
      exact h3
    · exact Or.inr h
  · rw [ht, hl0, List.append_assoc]
  · intro e he
    rcases List.mem_append.1 he with h | h
    · exact hq0 e h
    · exact hq e h

theorem accel_invariant_IR_sense (base : List Effect) (ms : Nat) (i : Inputs) (v : World)
    (hv : accel_invariant base v) : accel_invariant base (IR_sense ms (environment i v)) := by
  have hact : (IR_sense ms (environment i v)).action = v.action := IR_sense_action ms _
  cases hs : (environment i v).timer_started
  · refine accel_invariant_extend base v _ [.TMRSRVC_new_notify_restart ms] hv ?_ ?_
      (by rw [hact]) (by rw [hact]) (Or.inl (by rw [hact]))
    · rw [IR_sense_of_first ms _ hs]
      rfl
    · intro e he
      rw [List.mem_singleton] at he
      rw [he]
      rfl
  · cases htc : (environment i v).sense_timer.tc
    · refine accel_invariant_extend base v _ [] hv ?_ ?_
        (by rw [hact]) (by rw [hact]) (Or.inl (by rw [hact]))
      · rw [IR_sense_of_waiting ms _ hs htc, List.append_nil]
        rfl
      · intro e he
        cases he
    · refine accel_invariant_extend base v _ [.LED_toggle_green,
        .ATTINY_get_IR_state .ATTINY_IR_LEFT, .ATTINY_get_IR_state .ATTINY_IR_RIGHT] hv ?_ ?_
        (by rw [hact]) (by rw [hact]) (Or.inl (by rw [hact]))
      · rw [IR_sense_of_elapsed ms _ hs htc]
        rfl
      · intro e he
        simp only [List.mem_cons, List.mem_singleton] at he
        rcases he with rfl | rfl | rfl | h
        · rfl
        · rfl
        · rfl
        · cases h

theorem accel_invariant_pixy_process (base : List Effect) (i : Inputs) (v : World)
    (hv : accel_invariant base v) : accel_invariant base (pixy_process (environment i v)) := by
  cases hf : (environment i v).pixy_has_data
  · refine accel_invariant_extend base v _
      [.read_pixy_pos_x, .read_pixy_pos_y, .PIXY_has_data false] hv ?_ ?_ ?_ ?_ ?_
    · rw [pixy_process_of_stale _ hf]
      rfl
    · intro e he
      simp only [List.mem_cons, List.mem_singleton] at he
      rcases he with rfl | rfl | rfl | h
      · rfl
      · rfl
      · rfl
      · cases h
    · rw [pixy_process_of_stale _ hf]
      rfl
    · rw [pixy_process_of_stale _ hf]
      rfl
    · left
      rw [pixy_process_of_stale _ hf]
      rfl
  · by_cases hs : (environment i v).sensor_data.pixy_data.signum = 1
    · refine accel_invariant_extend base v _
        [.read_pixy_pos_x, .read_pixy_pos_y, .PIXY_has_data true,
         .write_state .PIXYFOLLOWING, .read_pixy_signum,
         .write_speed_L
           (toShort (100 + ((environment i v).sensor_data.pixy_data.pos.x - 160))),
         .write_speed_R
           (toShort (100 - ((environment i v).sensor_data.pixy_data.pos.x - 160))),
         .PIXY_process_finished] hv ?_ ?_ ?_ ?_ ?_
      · rw [pixy_process_of_fresh_match _ hf hs]
        rfl
      · intro e he
        simp only [List.mem_cons, List.mem_singleton] at he
        rcases he with rfl | rfl | rfl | rfl | rfl | rfl | rfl | rfl | h
        all_goals first | rfl | cases h
      · rw [pixy_process_of_fresh_match _ hf hs]
        rfl
      · rw [pixy_process_of_fresh_match _ hf hs]
        rfl
      · right
        rw [pixy_process_of_fresh_match _ hf hs]
    · refine accel_invariant_extend base v _
        [.read_pixy_pos_x, .read_pixy_pos_y, .PIXY_has_data true,
         .write_state .PIXYFOLLOWING, .read_pixy_signum, .PIXY_process_finished] hv ?_ ?_ ?_ ?_ ?_
      · rw [pixy_process_of_fresh_other _ hf hs]
        rfl
      · intro e he
        simp only [List.mem_cons, List.mem_singleton] at he
        rcases he with rfl | rfl | rfl | rfl | rfl | rfl | h
        all_goals first | rfl | cases h
      · rw [pixy_process_of_fresh_other _ hf hs]
        rfl
      · rw [pixy_process_of_fresh_other _ hf hs]
        rfl
      · right
        rw [pixy_process_of_fresh_other _ hf hs]

theorem accel_invariant_act (base : List Effect) (i : Inputs) (v : World)
    (hv : accel_invariant base v) : accel_invariant base (act (environment i v)) := by
  by_cases h : (environment i v).action = (environment i v).previous_action
  · refine accel_invariant_extend base v _ [] hv ?_ ?_ ?_ ?_ ?_
    · rw [act_of_eq _ h, List.append_nil]
      rfl
    · intro e he
      cases he
    · rw [act_of_eq _ h]
      rfl
    · rw [act_of_eq _ h]
      rfl
    · left
      rw [act_of_eq _ h]
      rfl
  · refine accel_invariant_extend base v _
      [.STEPPER_set_accel2 v.action.accel_L v.action.accel_R,
       .STEPPER_runn v.action.speed_L v.action.speed_R] hv ?_ ?_ ?_ ?_ ?_
    · rw [act_of_ne _ h]
      rfl
    · intro e he
      simp only [List.mem_cons, List.mem_singleton] at he
      rcases he with rfl | rfl | h
      · simp [Effect.accel_quiet, hv.1, hv.2.1]
      · rfl
      · cases h
    · rw [act_of_ne _ h]
      rfl
    · rw [act_of_ne _ h]
      rfl
    · left
      rw [act_of_ne _ h]
      rfl

theorem accel_invariant_info_display (base : List Effect) (i : Inputs) (v : World)
    (hv : accel_invariant base v) : accel_invariant base (info_display (environment i v)) := by
  by_cases h : (environment i v).action.state ≠ (environment i v).previous_state ∨
      (environment i v).action.state = .STARTUP
  · refine accel_invariant_extend base v _
      [.LCD_clear, .LCD_printf (state_message v.action.state)] hv ?_ ?_ ?_ ?_ ?_
    · rw [info_display_of_redraw _ h]
      rfl
    · intro e he
      simp only [List.mem_cons, List.mem_singleton] at he
      rcases he with rfl | rfl | h
      · rfl
      · rfl
      · cases h
    · rw [info_display_of_redraw _ h]
      rfl
    · rw [info_display_of_redraw _ h]
      rfl
    · left
      rw [info_display_of_redraw _ h]
      rfl
  · rw [not_or, not_not] at h
    have hsame := info_display_of_same _ h.1 h.2
    refine accel_invariant_extend base v _ [] hv ?_ ?_ ?_ ?_ ?_
    · rw [hsame, List.append_nil]
      rfl
    · intro e he
      cases he
    · rw [hsame]
      rfl
    · rw [hsame]
      rfl
    · left
      rw [hsame]
      rfl

theorem accel_invariant_loop_step (base : List Effect) (i : Inputs) (s : LoopPoint × World)
    (hs : accel_invariant base s.2) : accel_invariant base (loop_step i s).2 := by
  obtain ⟨pc, v⟩ := s
  cases pc
  · exact accel_invariant_IR_sense base 125 i v hs
  · exact accel_invariant_pixy_process base i v hs
  · exact accel_invariant_act base i v hs
  · exact accel_invariant_info_display base i v hs

theorem accel_invariant_loop_run (base : List Effect) (is : List Inputs) :
    ∀ s : LoopPoint × World, accel_invariant base s.2 →
      accel_invariant base (loop_run is s).2 := by
  induction is with
  | nil =>
    intro s hs
    exact hs
  | cons i rest ih =>
    intro s hs
    have hstep : loop_run (i :: rest) s = loop_run rest (loop_step i s) := rfl
    rw [hstep]
    exact ih _ (accel_invariant_loop_step base i s hs)

theorem behaviour_call_cases (b : Behaviour) (w : World) :
    ∃ l : List Effect,
      (b.call w).trace = w.trace ++ l ∧
      Effect.write_state .STARTUP ∉ l ∧
      (b.fires w = true → (b.call w).action.state ≠ .STARTUP) ∧
      (b.fires w = false → (b.call w).action = w.action) := by
  cases b
  · refine ⟨[.write_state .CRUISING, .write_speed_L 100, .write_speed_R 100,
      .write_accel_L 400, .write_accel_R 400], ?_, by decide, ?_, ?_⟩
    · show (cruise w).trace = _
      rw [cruise_eq]
    · intro _
      show (cruise w).action.state ≠ _
      rw [cruise_eq]
      simp
    · intro h
      cases h
  · show ∃ l : List Effect, (pixy_process w).trace = w.trace ++ l ∧ _ ∧
      (w.pixy_has_data = true → (pixy_process w).action.state ≠ .STARTUP) ∧
      (w.pixy_has_data = false → (pixy_process w).action = w.action)
    cases hf : w.pixy_has_data
    · refine ⟨_, by rw [pixy_process_of_stale w hf], by decide, ?_, ?_⟩
      · intro h
        cases h
      · intro _
        rw [pixy_process_of_stale w hf]
    · by_cases hs : w.sensor_data.pixy_data.signum = 1
      · refine ⟨_, by rw [pixy_process_of_fresh_match w hf hs], by simp, ?_, ?_⟩
        · intro _
          rw [pixy_process_of_fresh_match w hf hs]
          simp
        · intro h
          cases h
      · refine ⟨_, by rw [pixy_process_of_fresh_other w hf hs], by decide, ?_, ?_⟩
        · intro _
          rw [pixy_process_of_fresh_other w hf hs]
          simp
        · intro h
          cases h
  · show ∃ l : List Effect, (IR_avoid w).trace = w.trace ++ l ∧ _ ∧
      ((w.sensor_data.left_IR || w.sensor_data.right_IR) = true →
        (IR_avoid w).action.state ≠ .STARTUP) ∧
      ((w.sensor_data.left_IR || w.sensor_data.right_IR) = false → (IR_avoid w).action = w.action)
    by_cases htr : w.sensor_data.left_IR = true ∨ w.sensor_data.right_IR = true
    · refine ⟨_, by rw [IR_avoid_of_tripped w htr], by decide, ?_, ?_⟩
      · intro _
        rw [IR_avoid_of_tripped w htr]
        simp
      · intro h
        rw [Bool.or_eq_false_iff] at h
        rcases htr with h1 | h1
        · rw [h.1] at h1
          cases h1
        · rw [h.2] at h1
          cases h1
    · rw [not_or] at htr
      have hl : w.sensor_data.left_IR = false := by simpa using htr.1
      have hr : w.sensor_data.right_IR = false := by simpa using htr.2
      refine ⟨[], by rw [IR_avoid_of_clear w hl hr, List.append_nil], by simp, ?_, ?_⟩
      · intro h
        rw [hl, hr] at h
        cases h
      · intro _
        rw [IR_avoid_of_clear w hl hr]

theorem behaviour_call_keeps_started (b : Behaviour) (w : World)
    (h : w.action.state ≠ .STARTUP) : (b.call w).action.state ≠ .STARTUP := by
  obtain ⟨_, _, _, hfire, hskip⟩ := behaviour_call_cases b w
  cases hb : b.fires w
  · rw [hskip hb]
    exact h
  · exact hfire hb

theorem call_behaviours_keeps_started (bs : List Behaviour) :
    ∀ w : World, w.action.state ≠ .STARTUP → (call_behaviours bs w).action.state ≠ .STARTUP := by
  induction bs with
  | nil =>
    intro w h
    exact h
  | cons b rest ih =>
    intro w h
    have hstep : call_behaviours (b :: rest) w = call_behaviours rest (b.call w) := rfl
    rw [hstep]
    exact ih _ (behaviour_call_keeps_started b w h)

theorem act_act (v : World) : act (act v) = act v := by
  by_cases h : v.action = v.previous_action
  · rw [act_of_eq v h]
    exact act_of_eq v h
  · apply act_of_eq
    rw [act_of_ne v h]

/-! ## Theorems -/

/-- C1: `compare_actions a b` is `TRUE` exactly when the two records agree on
`state`, `speed_L`, `speed_R`, `accel_L` and `accel_R`, and `FALSE` exactly when
at least one of the five fields differs. -/
theorem compare_actions_iff_fields (a b : MOTOR_ACTION) :
    (compare_actions a b = true ↔
      (a.state = b.state ∧ a.speed_L = b.speed_L ∧ a.speed_R = b.speed_R ∧
        a.accel_L = b.accel_L ∧ a.accel_R = b.accel_R)) ∧
    (compare_actions a b = false ↔
      (a.state ≠ b.state ∨ a.speed_L ≠ b.speed_L ∨ a.speed_R ≠ b.speed_R ∨
        a.accel_L ≠ b.accel_L ∨ a.accel_R ≠ b.accel_R)) := by
  have key := MOTOR_ACTION_eq_iff_fields a b
  constructor
  · rw [compare_actions_eq_true, key]
  · rw [compare_actions_eq_false, Ne, key]
    tauto

/-- C2: the ActionGate.  Whatever the stored `previous_action`: when the proposed
action differs from it in at least one field, `act` makes exactly the two
Dispatcher calls `STEPPER_set_accel2(accel_L, accel_R)` then
`STEPPER_runn(speed_L, speed_R)` with the proposed values, stores the proposed
action as the new previous action and changes nothing else; when all five fields
agree, `act` changes nothing at all (no call, same stored action).  In both
cases the proposed action is left as it was. -/
theorem act_gate (w : World) :
    ((w.action.state ≠ w.previous_action.state ∨ w.action.speed_L ≠ w.previous_action.speed_L ∨
        w.action.speed_R ≠ w.previous_action.speed_R ∨
        w.action.accel_L ≠ w.previous_action.accel_L ∨
        w.action.accel_R ≠ w.previous_action.accel_R) →
      act w =
        { w with
          previous_action := w.action
          trace := w.trace ++ [.STEPPER_set_accel2 w.action.accel_L w.action.accel_R,
                               .STEPPER_runn w.action.speed_L w.action.speed_R] }) ∧
    ((w.action.state = w.previous_action.state ∧ w.action.speed_L = w.previous_action.speed_L ∧
        w.action.speed_R = w.previous_action.speed_R ∧
        w.action.accel_L = w.previous_action.accel_L ∧
        w.action.accel_R = w.previous_action.accel_R) →
      act w = w) ∧
    (act w).action = w.action := by
  have hfields := MOTOR_ACTION_eq_iff_fields w.action w.previous_action
  refine ⟨fun hd => ?_, fun he => ?_, ?_⟩
  · apply act_of_ne w
    intro heq
    have hall := hfields.1 heq
    tauto
  · exact act_of_eq w (hfields.2 he)
  · by_cases h : w.action = w.previous_action
    · rw [act_of_eq w h]
    · rw [act_of_ne w h]

/-- C2, at concrete inputs: from the loop-entry gate state, proposing
`{PIXYFOLLOWING, 140, 60, 0, 0}` dispatches `STEPPER_set_accel2(0, 0)` then
`STEPPER_runn(140, 60)` and stores the proposal. -/
theorem act_gate_witness :
    act (world_proposing ⟨.PIXYFOLLOWING, 140, 60, 0, 0⟩) =
      { world_proposing ⟨.PIXYFOLLOWING, 140, 60, 0, 0⟩ with
        previous_action := ⟨.PIXYFOLLOWING, 140, 60, 0, 0⟩
        trace := [.STEPPER_set_accel2 0 0, .STEPPER_runn 140 60] } :=
  (act_gate (world_proposing ⟨.PIXYFOLLOWING, 140, 60, 0, 0⟩)).1 (Or.inl (by decide))

/-- C3 as stated fails: with the gate in its initial state and the proposed
action equal to the reset action `{STARTUP,0,0,0,0}` (the situation of the first
loop passes before any observation arrives), two calls of `act` make no
Dispatcher invocation at all, not one. -/
theorem act_twice_reset_action_no_dispatch :
    loop_entry_world.previous_action = RESET_ACTION_value ∧
    dispatch_count (act (act loop_entry_world)).trace = dispatch_count loop_entry_world.trace ∧
    dispatch_count (act (act loop_entry_world)).trace ≠
      dispatch_count loop_entry_world.trace + 1 := by
  decide

/-- C3, amended: starting from the initial gate state
(`previous_action = {STARTUP,0,0,0,0}`), two calls of `act` in a row with the
same proposed action make exactly one Dispatcher invocation in total when the
action differs from the reset action, and none when it equals it; and in every
gate state `v` whatsoever (no assumption on `v.previous_action`) the second of
the two calls changes nothing: it has no effect, so it dispatches nothing. -/
theorem act_twice_dispatch_count (w : World) (hinit : w.previous_action = RESET_ACTION_value) :
    dispatch_count (act (act w)).trace =
      dispatch_count w.trace + (if w.action = RESET_ACTION_value then 0 else 1) ∧
    (w.action ≠ RESET_ACTION_value →
      (act (act w)).trace =
        w.trace ++ [.STEPPER_set_accel2 w.action.accel_L w.action.accel_R,
                    .STEPPER_runn w.action.speed_L w.action.speed_R]) ∧
    (w.action = RESET_ACTION_value → (act (act w)).trace = w.trace) ∧
    (act (act w)).trace = (act w).trace ∧
    ∀ v : World,
      act (act v) = act v ∧
      effects_of act (act v) = [] ∧
      (act (act v)).trace = (act v).trace ∧
      dispatch_count (act (act v)).trace = dispatch_count (act v).trace := by
  have hany : ∀ v : World,
      act (act v) = act v ∧
      effects_of act (act v) = [] ∧
      (act (act v)).trace = (act v).trace ∧
      dispatch_count (act (act v)).trace = dispatch_count (act v).trace := by
    intro v
    have hv := act_act v
    refine ⟨hv, ?_, by rw [hv], by rw [hv]⟩
    apply effects_of_append
    rw [hv, List.append_nil]
  by_cases h : w.action = RESET_ACTION_value
  · have h1 : act w = w := act_of_eq w (h.trans hinit.symm)
    refine ⟨?_, fun hne => absurd h hne, fun _ => ?_, ?_, hany⟩
    · simp [h1, h]
    · rw [h1, h1]
    · rw [act_act]
  · have hne : w.action ≠ w.previous_action := by
      rw [hinit]
      exact h
    have h2 : act (act w) = act w := act_act w
    refine ⟨?_, fun _ => ?_, fun he => absurd he h, by rw [h2], hany⟩
    · rw [h2, act_of_ne w hne]
      simp [h, dispatch_count, List.countP_append, List.countP_cons]
    · rw [h2, act_of_ne w hne]

/-- C3, at concrete inputs: proposing `{PIXYFOLLOWING, 140, 60, 0, 0}` twice from
the initial gate state dispatches once; and from the gate state
`{CRUISING,100,100,400,400}`, which is not the initial one, the second of two
calls proposing `{PIXYFOLLOWING, 140, 60, 0, 0}` has no effect. -/
theorem act_twice_dispatch_count_witness :
    dispatch_count (act (act (world_proposing ⟨.PIXYFOLLOWING, 140, 60, 0, 0⟩))).trace = 1 ∧
    effects_of act
      (act { world_proposing ⟨.PIXYFOLLOWING, 140, 60, 0, 0⟩ with
             previous_action := ⟨.CRUISING, 100, 100, 400, 400⟩ }) = [] ∧
    effects_of act
      { world_proposing ⟨.PIXYFOLLOWING, 140, 60, 0, 0⟩ with
        previous_action := ⟨.CRUISING, 100, 100, 400, 400⟩ } =
      [.STEPPER_set_accel2 0 0, .STEPPER_runn 140 60] := by
  have h := act_twice_dispatch_count (world_proposing ⟨.PIXYFOLLOWING, 140, 60, 0, 0⟩) rfl
  refine ⟨?_, (h.2.2.2.2 _).2.1, by decide⟩
  simpa [world_proposing, loop_entry_world, RESET_ACTION_value, dispatch_count] using h.1

/-- C4 as stated fails for a centroid far outside the sensor frame: with a fresh
observation of signature 1 and `pos.x = 40000`, `100 + (x - 160)` is 39940, which
a `signed short int` cannot hold; `pixy_process` stores -25596 in `speed_L`
(and 25796 in `speed_R`, where `100 - (x - 160)` is -39740). -/
theorem pixy_process_far_centroid_wraps :
    (world_observing RESET_ACTION_value 1 40000 120 true).pixy_has_data = true ∧
    (world_observing RESET_ACTION_value 1 40000 120 true).sensor_data.pixy_data.signum = 1 ∧
    (pixy_process (world_observing RESET_ACTION_value 1 40000 120 true)).action.speed_L = -25596 ∧
    (pixy_process (world_observing RESET_ACTION_value 1 40000 120 true)).action.speed_R = 25796 ∧
    (pixy_process (world_observing RESET_ACTION_value 1 40000 120 true)).action.speed_L ≠
      100 + (40000 - 160) ∧
    (pixy_process (world_observing RESET_ACTION_value 1 40000 120 true)).action.speed_R ≠
      100 - (40000 - 160) := by
  decide

/-- C4, amended: for every prior action and every fresh observation with
signature 1 and centroid x, `pixy_process` sets `state = PIXYFOLLOWING`, stores in
`speed_L` and `speed_R` the values `100 + (x - 160)` and `100 - (x - 160)`
converted to `signed short int` (so exactly those integers whenever both lie in
-32768..32767), leaves `accel_L` and `accel_R` as they were, and the observation
is no longer fresh afterwards. -/
theorem pixy_process_matching_signature (w : World) (hfresh : w.pixy_has_data = true)
    (hsig : w.sensor_data.pixy_data.signum = 1) :
    (pixy_process w).action.state = .PIXYFOLLOWING ∧
    (pixy_process w).action.speed_L = toShort (100 + (w.sensor_data.pixy_data.pos.x - 160)) ∧
    (pixy_process w).action.speed_R = toShort (100 - (w.sensor_data.pixy_data.pos.x - 160)) ∧
    ((-32768 ≤ 100 + (w.sensor_data.pixy_data.pos.x - 160) ∧
        100 + (w.sensor_data.pixy_data.pos.x - 160) ≤ 32767 ∧
        -32768 ≤ 100 - (w.sensor_data.pixy_data.pos.x - 160) ∧
        100 - (w.sensor_data.pixy_data.pos.x - 160) ≤ 32767) →
      (pixy_process w).action.speed_L = 100 + (w.sensor_data.pixy_data.pos.x - 160) ∧
      (pixy_process w).action.speed_R = 100 - (w.sensor_data.pixy_data.pos.x - 160)) ∧
    (pixy_process w).action.accel_L = w.action.accel_L ∧
    (pixy_process w).action.accel_R = w.action.accel_R ∧
    (pixy_process w).pixy_has_data = false := by
  rw [pixy_process_of_fresh_match w hfresh hsig]
  refine ⟨rfl, rfl, rfl, ?_, rfl, rfl, rfl⟩
  rintro ⟨h1, h2, h3, h4⟩
  exact ⟨toShort_of_fits _ h1 h2, toShort_of_fits _ h3 h4⟩

/-- C4, the spec's example: centroid (200,120), signature 1, fresh, prior action
`{CRUISING,100,100,400,400}` gives `state = PIXYFOLLOWING`, `speed_L = 140`,
`speed_R = 60`, accelerations still 400, and the observation consumed. -/
theorem pixy_process_matching_signature_witness :
    (pixy_process (world_observing ⟨.CRUISING, 100, 100, 400, 400⟩ 1 200 120 true)).action =
      ⟨.PIXYFOLLOWING, 140, 60, 400, 400⟩ ∧
    (pixy_process (world_observing ⟨.CRUISING, 100, 100, 400, 400⟩ 1 200 120 true)).pixy_has_data =
      false := by
  have h := pixy_process_matching_signature
    (world_observing ⟨.CRUISING, 100, 100, 400, 400⟩ 1 200 120 true) rfl rfl
  obtain ⟨hst, -, -, hexact, haL, haR, hfl⟩ := h
  obtain ⟨hL, hR⟩ := hexact (by decide)
  exact ⟨MOTOR_ACTION_eq_of_fields _ _ hst hL hR haL haR, hfl⟩

/-- C5: for every prior action and every fresh observation whose signature is
not 1, `pixy_process` sets `state = PIXYFOLLOWING`, leaves `speed_L`, `speed_R`,
`accel_L` and `accel_R` at their values before the call, and the observation is
no longer fresh afterwards. -/
theorem pixy_process_other_signature (w : World) (hfresh : w.pixy_has_data = true)
    (hsig : w.sensor_data.pixy_data.signum ≠ 1) :
    (pixy_process w).action.state = .PIXYFOLLOWING ∧
    (pixy_process w).action.speed_L = w.action.speed_L ∧
    (pixy_process w).action.speed_R = w.action.speed_R ∧
    (pixy_process w).action.accel_L = w.action.accel_L ∧
    (pixy_process w).action.accel_R = w.action.accel_R ∧
    (pixy_process w).pixy_has_data = false := by
  rw [pixy_process_of_fresh_other w hfresh hsig]
  exact ⟨rfl, rfl, rfl, rfl, rfl, rfl⟩

/-- C5, the spec's example: centroid (200,120), signature 2, fresh, prior speeds
(100,100) gives `state = PIXYFOLLOWING` with the speeds still (100,100). -/
theorem pixy_process_other_signature_witness :
    (pixy_process (world_observing ⟨.CRUISING, 100, 100, 400, 400⟩ 2 200 120 true)).action =
      ⟨.PIXYFOLLOWING, 100, 100, 400, 400⟩ ∧
    (pixy_process (world_observing ⟨.CRUISING, 100, 100, 400, 400⟩ 2 200 120 true)).pixy_has_data =
      false := by
  have h := pixy_process_other_signature
    (world_observing ⟨.CRUISING, 100, 100, 400, 400⟩ 2 200 120 true) rfl (by decide)
  obtain ⟨hst, hL, hR, haL, haR, hfl⟩ := h
  exact ⟨MOTOR_ACTION_eq_of_fields _ _ hst hL hR haL haR, hfl⟩

/-- C6: when the freshness flag is false, whatever the prior action and the
content of the observation buffer, `pixy_process` leaves the action unchanged,
its only effects are the two coordinate reads and the `PIXY_has_data` query (so
`PIXY_process_finished` is not called), the flag stays false, and the resulting
action is the same for every content of the stale observation. -/
theorem pixy_process_stale (w : World) (hstale : w.pixy_has_data = false) :
    (pixy_process w).action = w.action ∧
    (pixy_process w).trace =
      w.trace ++ [.read_pixy_pos_x, .read_pixy_pos_y, .PIXY_has_data false] ∧
    Effect.PIXY_process_finished ∉ effects_of pixy_process w ∧
    (pixy_process w).pixy_has_data = false ∧
    (pixy_process w).sensor_data = w.sensor_data ∧
    ∀ d : PIXY_DATA,
      (pixy_process { w with sensor_data := { w.sensor_data with pixy_data := d } }).action =
        (pixy_process w).action := by
  have ht : (pixy_process w).trace =
      w.trace ++ [.read_pixy_pos_x, .read_pixy_pos_y, .PIXY_has_data false] := by
    rw [pixy_process_of_stale w hstale]
  refine ⟨?_, ht, ?_, ?_, ?_, fun d => ?_⟩
  · rw [pixy_process_of_stale w hstale]
  · rw [effects_of_append pixy_process w _ ht]
    decide
  · rw [pixy_process_of_stale w hstale]
    exact hstale
  · rw [pixy_process_of_stale w hstale]
  · have hd := pixy_process_of_stale
      { w with sensor_data := { w.sensor_data with pixy_data := d } } hstale
    rw [hd, pixy_process_of_stale w hstale]

/-- C6, at a concrete input: a stale observation (200,120) of signature 1 leaves
the prior action `{CRUISING,100,100,400,400}` as it is. -/
theorem pixy_process_stale_witness :
    (pixy_process (world_observing ⟨.CRUISING, 100, 100, 400, 400⟩ 1 200 120 false)).action =
      ⟨.CRUISING, 100, 100, 400, 400⟩ :=
  (pixy_process_stale (world_observing ⟨.CRUISING, 100, 100, 400, 400⟩ 1 200 120 false) rfl).1

/-- C8: what the code does.  In a call of `pixy_process` with the freshness flag
false (stale observation (200,120), signature 1) the observation fields `pos.x`
and `pos.y` are read all the same, and both reads come before the
`PIXY_has_data` query, which then answers false; in a call with the flag true
the two reads likewise precede the query. -/
theorem pixy_process_reads_before_fresh_check :
    effects_of pixy_process (world_observing RESET_ACTION_value 1 200 120 false) =
      [.read_pixy_pos_x, .read_pixy_pos_y, .PIXY_has_data false] ∧
    (effects_of pixy_process (world_observing RESET_ACTION_value 1 200 120 false)).filter
        Effect.isObservationRead = [.read_pixy_pos_x, .read_pixy_pos_y] ∧
    (effects_of pixy_process (world_observing RESET_ACTION_value 1 200 120 true)).take 3 =
      [.read_pixy_pos_x, .read_pixy_pos_y, .PIXY_has_data true] := by
  decide

/-- C9: for every prior action `cruise` leaves the action equal to
`{CRUISING, 100, 100, 400, 400}`; the result is the same for any two prior
worlds, and running `cruise` again gives the same action. -/
theorem cruise_sets_action (w w' : World) :
    (cruise w).action =
      { state := .CRUISING, speed_L := 100, speed_R := 100, accel_L := 400, accel_R := 400 } ∧
    (cruise w).action = (cruise w').action ∧
    (cruise (cruise w)).action = (cruise w).action := by
  have key : ∀ v : World, (cruise v).action =
      { state := .CRUISING, speed_L := 100, speed_R := 100, accel_L := 400, accel_R := 400 } := by
    intro v
    have h100 : toShort 100 = 100 := by decide
    have h400 : toUShort 400 = 400 := by decide
    simp [cruise, set_state, set_speed_L, set_speed_R, set_accel_L, set_accel_R, emit, h100, h400]
  exact ⟨key w, (key w).trans (key w').symm, (key _).trans (key w).symm⟩

/-- C10: whenever at least one of `left_IR`, `right_IR` is true, whatever the
prior action, the actuator calls `IR_avoid` makes are exactly, in this order:
`STEPPER_stop(STEPPER_BOTH, STEPPER_BRK_OFF)`; a timed move of both steppers in
reverse, 250 steps, speed 200, acceleration 400; a timed move with the left
stepper in reverse and the right forward, 150 steps each, speed 200,
acceleration 400; and the action it leaves is
`{AVOIDING, 200, 200, 400, 400}`. -/
theorem IR_avoid_tripped (w : World)
    (htrip : w.sensor_data.left_IR = true ∨ w.sensor_data.right_IR = true) :
    (effects_of IR_avoid w).filter Effect.isActuatorCall =
      [.STEPPER_stop .STEPPER_BOTH .STEPPER_BRK_OFF,
       .STEPPER_move_stwt .STEPPER_BOTH .STEPPER_REV 250 200 400 .STEPPER_BRK_OFF
         .STEPPER_REV 250 200 400 .STEPPER_BRK_OFF,
       .STEPPER_move_stwt .STEPPER_BOTH .STEPPER_REV 150 200 400 .STEPPER_BRK_OFF
         .STEPPER_FWD 150 200 400 .STEPPER_BRK_OFF] ∧
    (IR_avoid w).trace = w.trace ++ effects_of IR_avoid w ∧
    effects_of IR_avoid w =
      [.write_state .AVOIDING, .LCD_clear, .LCD_printf "AVOIDING...\n",
       .STEPPER_stop .STEPPER_BOTH .STEPPER_BRK_OFF,
       .STEPPER_move_stwt .STEPPER_BOTH .STEPPER_REV 250 200 400 .STEPPER_BRK_OFF
         .STEPPER_REV 250 200 400 .STEPPER_BRK_OFF,
       .STEPPER_move_stwt .STEPPER_BOTH .STEPPER_REV 150 200 400 .STEPPER_BRK_OFF
         .STEPPER_FWD 150 200 400 .STEPPER_BRK_OFF,
       .write_state .AVOIDING, .write_speed_L 200, .write_speed_R 200,
       .write_accel_L 400, .write_accel_R 400] ∧
    (IR_avoid w).action =
      { state := .AVOIDING, speed_L := 200, speed_R := 200, accel_L := 400, accel_R := 400 } := by
  have ht : (IR_avoid w).trace = w.trace ++
      [.write_state .AVOIDING, .LCD_clear, .LCD_printf "AVOIDING...\n",
       .STEPPER_stop .STEPPER_BOTH .STEPPER_BRK_OFF,
       .STEPPER_move_stwt .STEPPER_BOTH .STEPPER_REV 250 200 400 .STEPPER_BRK_OFF
         .STEPPER_REV 250 200 400 .STEPPER_BRK_OFF,
       .STEPPER_move_stwt .STEPPER_BOTH .STEPPER_REV 150 200 400 .STEPPER_BRK_OFF
         .STEPPER_FWD 150 200 400 .STEPPER_BRK_OFF,
       .write_state .AVOIDING, .write_speed_L 200, .write_speed_R 200,
       .write_accel_L 400, .write_accel_R 400] := by
    rw [IR_avoid_of_tripped w htrip]
  have he := effects_of_append IR_avoid w _ ht
  refine ⟨?_, ?_, he, ?_⟩
  · rw [he]
    simp [List.filter, Effect.isActuatorCall]
  · rw [he, ht]
  · rw [IR_avoid_of_tripped w htrip]

/-- C10, the spec's example: with both IR sensors tripped and prior action
`{PIXYFOLLOWING, 140, 60, 0, 0}`, `IR_avoid` leaves `{AVOIDING, 200, 200, 400, 400}`
after the stop, reverse and pivot calls. -/
theorem IR_avoid_tripped_witness :
    (IR_avoid (world_sensing ⟨.PIXYFOLLOWING, 140, 60, 0, 0⟩ true true)).action =
      ⟨.AVOIDING, 200, 200, 400, 400⟩ ∧
    (effects_of IR_avoid (world_sensing ⟨.PIXYFOLLOWING, 140, 60, 0, 0⟩ true true)).filter
        Effect.isActuatorCall =
      [.STEPPER_stop .STEPPER_BOTH .STEPPER_BRK_OFF,
       .STEPPER_move_stwt .STEPPER_BOTH .STEPPER_REV 250 200 400 .STEPPER_BRK_OFF
         .STEPPER_REV 250 200 400 .STEPPER_BRK_OFF,
       .STEPPER_move_stwt .STEPPER_BOTH .STEPPER_REV 150 200 400 .STEPPER_BRK_OFF
         .STEPPER_FWD 150 200 400 .STEPPER_BRK_OFF] :=
  ⟨(IR_avoid_tripped (world_sensing ⟨.PIXYFOLLOWING, 140, 60, 0, 0⟩ true true) (Or.inl rfl)).2.2.2,
   (IR_avoid_tripped (world_sensing ⟨.PIXYFOLLOWING, 140, 60, 0, 0⟩ true true) (Or.inl rfl)).1⟩

/-- C11: when `left_IR` and `right_IR` are both false, whatever the prior
action, `IR_avoid` changes nothing: the five action fields are as before and the
call has no effect at all, so no actuator call and no display call. -/
theorem IR_avoid_not_tripped (w : World) (hleft : w.sensor_data.left_IR = false)
    (hright : w.sensor_data.right_IR = false) :
    (IR_avoid w).action = w.action ∧
    effects_of IR_avoid w = [] ∧
    IR_avoid w = w := by
  have h := IR_avoid_of_clear w hleft hright
  refine ⟨by rw [h], ?_, h⟩
  apply effects_of_append
  rw [h, List.append_nil]

/-- C11, at a concrete input: with neither IR tripped the prior action
`{PIXYFOLLOWING, 140, 60, 0, 0}` is kept and nothing is called. -/
theorem IR_avoid_not_tripped_witness :
    (IR_avoid (world_sensing ⟨.PIXYFOLLOWING, 140, 60, 0, 0⟩ false false)).action =
      ⟨.PIXYFOLLOWING, 140, 60, 0, 0⟩ ∧
    effects_of IR_avoid (world_sensing ⟨.PIXYFOLLOWING, 140, 60, 0, 0⟩ false false) = [] :=
  ⟨(IR_avoid_not_tripped (world_sensing ⟨.PIXYFOLLOWING, 140, 60, 0, 0⟩ false false) rfl rfl).1,
   (IR_avoid_not_tripped (world_sensing ⟨.PIXYFOLLOWING, 140, 60, 0, 0⟩ false false) rfl rfl).2.1⟩

/-- C12: `IR_avoid` is the single-branch version guarded by "left_IR or
right_IR"; for every prior world its resulting action and its effects are the
same for the snapshots (TRUE, TRUE), (TRUE, FALSE) and (FALSE, TRUE); the arm of
the if-chain that is entered is the first exactly when both IRs are tripped, the
second exactly when only the left one is, the third exactly when only the right
one is, and none exactly when neither is, so one arm and only one runs for a
snapshot with an IR tripped, and the stop call is then made once. -/
theorem IR_avoid_cases_identical (w : World) :
    IR_avoid w = IR_avoid_single_branch w ∧
    (IR_avoid (with_IR true true w)).action = (IR_avoid (with_IR true false w)).action ∧
    (IR_avoid (with_IR true true w)).action = (IR_avoid (with_IR false true w)).action ∧
    effects_of IR_avoid (with_IR true true w) = effects_of IR_avoid (with_IR true false w) ∧
    effects_of IR_avoid (with_IR true true w) = effects_of IR_avoid (with_IR false true w) ∧
    (IR_avoid_branch w = some 1 ↔
      (w.sensor_data.left_IR = true ∧ w.sensor_data.right_IR = true)) ∧
    (IR_avoid_branch w = some 2 ↔
      (w.sensor_data.left_IR = true ∧ w.sensor_data.right_IR = false)) ∧
    (IR_avoid_branch w = some 3 ↔
      (w.sensor_data.left_IR = false ∧ w.sensor_data.right_IR = true)) ∧
    (IR_avoid_branch w = none ↔
      (w.sensor_data.left_IR = false ∧ w.sensor_data.right_IR = false)) ∧
    (IR_avoid w = match IR_avoid_branch w with
      | some _ => avoid_sequence w
      | none => w) ∧
    ((w.sensor_data.left_IR = true ∨ w.sensor_data.right_IR = true) →
      (effects_of IR_avoid w).count (.STEPPER_stop .STEPPER_BOTH .STEPPER_BRK_OFF) = 1) := by
  have hcase : ∀ l r : Bool, (l = true ∨ r = true) →
      (IR_avoid (with_IR l r w)).action =
        { state := .AVOIDING, speed_L := 200, speed_R := 200, accel_L := 400, accel_R := 400 } ∧
      effects_of IR_avoid (with_IR l r w) =
        [.write_state .AVOIDING, .LCD_clear, .LCD_printf "AVOIDING...\n",
         .STEPPER_stop .STEPPER_BOTH .STEPPER_BRK_OFF,
         .STEPPER_move_stwt .STEPPER_BOTH .STEPPER_REV 250 200 400 .STEPPER_BRK_OFF
           .STEPPER_REV 250 200 400 .STEPPER_BRK_OFF,
         .STEPPER_move_stwt .STEPPER_BOTH .STEPPER_REV 150 200 400 .STEPPER_BRK_OFF
           .STEPPER_FWD 150 200 400 .STEPPER_BRK_OFF,
         .write_state .AVOIDING, .write_speed_L 200, .write_speed_R 200,
         .write_accel_L 400, .write_accel_R 400] := by
    intro l r hlr
    have htr : (with_IR l r w).sensor_data.left_IR = true ∨
        (with_IR l r w).sensor_data.right_IR = true := hlr
    constructor
    · rw [IR_avoid_of_tripped _ htr]
    · apply effects_of_append
      rw [IR_avoid_of_tripped _ htr]
  have hTT := hcase true true (Or.inl rfl)
  have hTF := hcase true false (Or.inl rfl)
  have hFT := hcase false true (Or.inr rfl)
  refine ⟨?_, hTT.1.trans hTF.1.symm, hTT.1.trans hFT.1.symm, hTT.2.trans hTF.2.symm,
    hTT.2.trans hFT.2.symm, ?_, ?_, ?_, ?_, ?_, ?_⟩
  · cases hl : w.sensor_data.left_IR <;> cases hr : w.sensor_data.right_IR
    · rw [IR_avoid_of_clear w hl hr]
      simp [IR_avoid_single_branch, hl, hr]
    · rw [IR_avoid_of_tripped w (Or.inr hr)]
      simp [IR_avoid_single_branch, hl, hr, avoid_sequence_eq]
    · rw [IR_avoid_of_tripped w (Or.inl hl)]
      simp [IR_avoid_single_branch, hl, hr, avoid_sequence_eq]
    · rw [IR_avoid_of_tripped w (Or.inl hl)]
      simp [IR_avoid_single_branch, hl, hr, avoid_sequence_eq]
  · cases hl : w.sensor_data.left_IR <;> cases hr : w.sensor_data.right_IR <;>
      simp [IR_avoid_branch, hl, hr]
  · cases hl : w.sensor_data.left_IR <;> cases hr : w.sensor_data.right_IR <;>
      simp [IR_avoid_branch, hl, hr]
  · cases hl : w.sensor_data.left_IR <;> cases hr : w.sensor_data.right_IR <;>
      simp [IR_avoid_branch, hl, hr]
  · cases hl : w.sensor_data.left_IR <;> cases hr : w.sensor_data.right_IR <;>
      simp [IR_avoid_branch, hl, hr]
  · cases hl : w.sensor_data.left_IR <;> cases hr : w.sensor_data.right_IR
    · rw [IR_avoid_of_clear w hl hr]
      simp [IR_avoid_branch, hl, hr]
    · rw [IR_avoid_of_tripped w (Or.inr hr)]
      simp [IR_avoid_branch, hl, hr, avoid_sequence_eq]
    · rw [IR_avoid_of_tripped w (Or.inl hl)]
      simp [IR_avoid_branch, hl, hr, avoid_sequence_eq]
    · rw [IR_avoid_of_tripped w (Or.inl hl)]
      simp [IR_avoid_branch, hl, hr, avoid_sequence_eq]
  · intro htr
    have he : effects_of IR_avoid w = _ :=
      effects_of_append IR_avoid w _ (by rw [IR_avoid_of_tripped w htr])
    rw [he]
    decide

/-- C13: on the first invocation of `IR_sense` (`timer_started` false), for
every snapshot and interval, the only effect is arming the timer with that
interval (notify-flag mode, restarting): `timer_started` becomes true,
`left_IR`, `right_IR` and the rest of the world are unchanged, no digital input
is read and the indicator is not toggled.  Over any sequence of one or more
`IR_sense` calls that starts there, whatever the drivers do in between and
whatever intervals are passed, the timer is armed exactly once, by the first
call. -/
theorem IR_sense_first_call (ms : Nat) (w : World) (hfirst : w.timer_started = false) :
    IR_sense ms w =
      { w with timer_started := true, trace := w.trace ++ [.TMRSRVC_new_notify_restart ms] } ∧
    effects_of (IR_sense ms) w = [.TMRSRVC_new_notify_restart ms] ∧
    (IR_sense ms w).timer_started = true ∧
    (IR_sense ms w).sensor_data.left_IR = w.sensor_data.left_IR ∧
    (IR_sense ms w).sensor_data.right_IR = w.sensor_data.right_IR ∧
    Effect.LED_toggle_green ∉ effects_of (IR_sense ms) w ∧
    (∀ which, Effect.ATTINY_get_IR_state which ∉ effects_of (IR_sense ms) w) ∧
    ∀ (i : Inputs) (calls : List (Inputs × Nat)),
      arm_count (effects_of (IR_sense_calls ((i, ms) :: calls)) w) = 1 ∧
      ∃ later : List Effect,
        effects_of (IR_sense_calls ((i, ms) :: calls)) w =
          .TMRSRVC_new_notify_restart ms :: later ∧
        arm_count later = 0 := by
  have h1 := IR_sense_of_first ms w hfirst
  have he : effects_of (IR_sense ms) w = [.TMRSRVC_new_notify_restart ms] :=
    effects_of_append (IR_sense ms) w _ (by rw [h1])
  refine ⟨h1, he, by rw [h1], by rw [h1], by rw [h1], ?_, ?_, ?_⟩
  · rw [he]
    simp
  · intro which
    rw [he]
    simp
  · intro i calls
    have hfe : (environment i w).timer_started = false := hfirst
    have hstep := IR_sense_of_first ms (environment i w) hfe
    have hstarted : (IR_sense ms (environment i w)).timer_started = true := by rw [hstep]
    obtain ⟨l, ht, ha, -⟩ := IR_sense_calls_started calls _ hstarted
    have hrun : IR_sense_calls ((i, ms) :: calls) w =
        IR_sense_calls calls (IR_sense ms (environment i w)) := rfl
    have htr : (IR_sense_calls ((i, ms) :: calls) w).trace =
        w.trace ++ (.TMRSRVC_new_notify_restart ms :: l) := by
      rw [hrun, ht, hstep]
      simp [environment]
    have hee := effects_of_append (IR_sense_calls ((i, ms) :: calls)) w _ htr
    refine ⟨?_, l, hee, ha⟩
    rw [hee]
    simp only [arm_count] at ha ⊢
    rw [List.countP_cons, ha]
    rfl

/-- C13, at a concrete input: from the loop-entry world the first call
`IR_sense( &sensor_data, 125 )` only arms the timer, and three calls in a row
with the elapsed flag raised in between arm it once. -/
theorem IR_sense_first_call_witness :
    effects_of (IR_sense 125) loop_entry_world = [.TMRSRVC_new_notify_restart 125] ∧
    arm_count (effects_of
      (IR_sense_calls
        [(⟨false, false, false, loop_entry_world.sensor_data.pixy_data, false⟩, 125),
         (⟨true, true, false, loop_entry_world.sensor_data.pixy_data, false⟩, 125),
         (⟨true, false, false, loop_entry_world.sensor_data.pixy_data, false⟩, 125)])
      loop_entry_world) = 1 :=
  ⟨(IR_sense_first_call 125 loop_entry_world rfl).2.1,
   ((IR_sense_first_call 125 loop_entry_world rfl).2.2.2.2.2.2.2
      ⟨false, false, false, loop_entry_world.sensor_data.pixy_data, false⟩
      [(⟨true, true, false, loop_entry_world.sensor_data.pixy_data, false⟩, 125),
       (⟨true, false, false, loop_entry_world.sensor_data.pixy_data, false⟩, 125)]).1⟩

/-- C14: on every invocation of `IR_sense` after the first (`timer_started`
true): if the timer's elapsed flag `tc` is set, `left_IR` and `right_IR` are
overwritten with the current left and right digital input readings, the
indicator is toggled exactly once, the flag is cleared and nothing else
changes; if the flag is not set, the call changes nothing. -/
theorem IR_sense_later_call (ms : Nat) (w : World) (hstarted : w.timer_started = true) :
    (w.sense_timer.tc = true →
      IR_sense ms w =
        { w with
          sensor_data :=
            { w.sensor_data with left_IR := w.IR_left_input, right_IR := w.IR_right_input }
          sense_timer := { w.sense_timer with tc := false }
          trace := w.trace ++ [.LED_toggle_green, .ATTINY_get_IR_state .ATTINY_IR_LEFT,
                               .ATTINY_get_IR_state .ATTINY_IR_RIGHT] } ∧
      (IR_sense ms w).sensor_data.left_IR = w.IR_left_input ∧
      (IR_sense ms w).sensor_data.right_IR = w.IR_right_input ∧
      (effects_of (IR_sense ms) w).count .LED_toggle_green = 1 ∧
      (IR_sense ms w).sense_timer.tc = false) ∧
    (w.sense_timer.tc = false →
      IR_sense ms w = w ∧ effects_of (IR_sense ms) w = []) := by
  constructor
  · intro htc
    have h := IR_sense_of_elapsed ms w hstarted htc
    have he := effects_of_append (IR_sense ms) w _ (show (IR_sense ms w).trace = w.trace ++ _ by
      rw [h])
    refine ⟨h, by rw [h], by rw [h], ?_, by rw [h]⟩
    rw [he]
    decide
  · intro htc
    have h := IR_sense_of_waiting ms w hstarted htc
    refine ⟨h, ?_⟩
    apply effects_of_append
    rw [h, List.append_nil]

/-- C14, at a concrete input: after the first call, with the elapsed flag set
and the left input high, the next call stores (true, false) in the snapshot,
toggles the indicator, reads both inputs and clears the flag; the call after
that, the flag still clear, changes nothing. -/
theorem IR_sense_later_call_witness :
    (IR_sense 125 (environment ⟨true, true, false, loop_entry_world.sensor_data.pixy_data, false⟩
      (IR_sense 125 loop_entry_world))).sensor_data.left_IR = true ∧
    IR_sense 125 (IR_sense 125 (environment
        ⟨true, true, false, loop_entry_world.sensor_data.pixy_data, false⟩
        (IR_sense 125 loop_entry_world))) =
      IR_sense 125 (environment ⟨true, true, false, loop_entry_world.sensor_data.pixy_data, false⟩
        (IR_sense 125 loop_entry_world)) :=
  ⟨((IR_sense_later_call 125
      (environment ⟨true, true, false, loop_entry_world.sensor_data.pixy_data, false⟩
        (IR_sense 125 loop_entry_world)) rfl).1 rfl).2.1,
   ((IR_sense_later_call 125
      (IR_sense 125 (environment ⟨true, true, false, loop_entry_world.sensor_data.pixy_data, false⟩
        (IR_sense 125 loop_entry_world))) rfl).2 rfl).1⟩

/-- C15 as stated fails on the loop body of `CBOT_main`, in which the calls of
`cruise` and `IR_avoid` are commented out (main.c 541, 543): in a pass where,
after sampling, the left IR is tripped and a fresh observation of signature 1 at
(200,120) is pending, the action handed to `act` is `{PIXYFOLLOWING, 140, 60, 0, 0}`,
not an `AVOIDING` one with speeds 200, and the actuator calls of the pass are
`STEPPER_set_accel2(0, 0)` and `STEPPER_runn(140, 60)`. -/
theorem cycle_hands_act_following_not_avoiding :
    (IR_sense 125 (world_tripped_and_fresh RESET_ACTION_value 1 200 120)).sensor_data.left_IR =
      true ∧
    (IR_sense 125 (world_tripped_and_fresh RESET_ACTION_value 1 200 120)).pixy_has_data = true ∧
    (pixy_process (IR_sense 125 (world_tripped_and_fresh RESET_ACTION_value 1 200 120))).action =
      ⟨.PIXYFOLLOWING, 140, 60, 0, 0⟩ ∧
    (pixy_process
      (IR_sense 125 (world_tripped_and_fresh RESET_ACTION_value 1 200 120))).action.state ≠
      .AVOIDING ∧
    (pixy_process
      (IR_sense 125 (world_tripped_and_fresh RESET_ACTION_value 1 200 120))).action.speed_L ≠
      200 ∧
    (effects_of CBOT_main_cycle (world_tripped_and_fresh RESET_ACTION_value 1 200 120)).filter
        Effect.isActuatorCall =
      [.STEPPER_set_accel2 0 0, .STEPPER_runn 140 60] := by
  decide

/-- C15, amended: the loop body as written invokes `pixy_process` as its only
behaviour, so in a pass in which, after sampling, at least one IR is tripped and
the observation is fresh, the action handed to `act` has `state = PIXYFOLLOWING`
and the accelerations it had before the pass, and it does not depend on the IR
snapshot.  When `IR_avoid` is invoked after `pixy_process`, as in the listed
order `cruise`, `pixy_process`, `IR_avoid`, the behaviour invoked last
determines the command: the resulting action is `{AVOIDING, 200, 200, 400, 400}`. -/
theorem cycle_arbitration (w : World)
    (htrip : (IR_sense 125 w).sensor_data.left_IR = true ∨
      (IR_sense 125 w).sensor_data.right_IR = true)
    (hfresh : (IR_sense 125 w).pixy_has_data = true) :
    CBOT_main_cycle w = info_display (act (pixy_process (IR_sense 125 w))) ∧
    (pixy_process (IR_sense 125 w)).action.state = .PIXYFOLLOWING ∧
    (pixy_process (IR_sense 125 w)).action.accel_L = w.action.accel_L ∧
    (pixy_process (IR_sense 125 w)).action.accel_R = w.action.accel_R ∧
    (∀ l r : Bool,
      (pixy_process (with_IR l r (IR_sense 125 w))).action =
        (pixy_process (IR_sense 125 w)).action) ∧
    (IR_avoid (pixy_process (IR_sense 125 w))).action =
      { state := .AVOIDING, speed_L := 200, speed_R := 200, accel_L := 400, accel_R := 400 } ∧
    (behaviours_in_listed_order (IR_sense 125 w)).action =
      { state := .AVOIDING, speed_L := 200, speed_R := 200, accel_L := 400, accel_R := 400 } := by
  have hact := IR_sense_action 125 w
  have h1 : (IR_avoid (pixy_process (IR_sense 125 w))).action =
      { state := .AVOIDING, speed_L := 200, speed_R := 200, accel_L := 400, accel_R := 400 } := by
    rw [IR_avoid_of_tripped _ (by rw [pixy_process_sensor_data]; exact htrip)]
  have h2 : (behaviours_in_listed_order (IR_sense 125 w)).action =
      { state := .AVOIDING, speed_L := 200, speed_R := 200, accel_L := 400, accel_R := 400 } := by
    unfold behaviours_in_listed_order
    rw [IR_avoid_of_tripped _ (by
      rw [pixy_process_sensor_data, cruise_eq]
      exact htrip)]
  refine ⟨rfl, ?_, ?_, ?_, fun l r => pixy_process_action_with_IR l r _, h1, h2⟩
  · by_cases hs : (IR_sense 125 w).sensor_data.pixy_data.signum = 1
    · rw [pixy_process_of_fresh_match _ hfresh hs]
    · rw [pixy_process_of_fresh_other _ hfresh hs]
  · by_cases hs : (IR_sense 125 w).sensor_data.pixy_data.signum = 1
    · rw [pixy_process_of_fresh_match _ hfresh hs, ← hact]
    · rw [pixy_process_of_fresh_other _ hfresh hs, ← hact]
  · by_cases hs : (IR_sense 125 w).sensor_data.pixy_data.signum = 1
    · rw [pixy_process_of_fresh_match _ hfresh hs, ← hact]
    · rw [pixy_process_of_fresh_other _ hfresh hs, ← hact]

/-- C15, at a concrete input: with the left IR tripped after sampling and a
fresh observation of signature 1 at (200,120), `pixy_process` alone hands on a
`PIXYFOLLOWING` action, and `IR_avoid` invoked after it gives
`{AVOIDING, 200, 200, 400, 400}`. -/
theorem cycle_arbitration_witness :
    (pixy_process
      (IR_sense 125 (world_tripped_and_fresh RESET_ACTION_value 1 200 120))).action.state =
      .PIXYFOLLOWING ∧
    (IR_avoid (pixy_process
      (IR_sense 125 (world_tripped_and_fresh RESET_ACTION_value 1 200 120)))).action =
      ⟨.AVOIDING, 200, 200, 400, 400⟩ :=
  ⟨(cycle_arbitration (world_tripped_and_fresh RESET_ACTION_value 1 200 120)
      (Or.inl (by decide)) (by decide)).2.1,
   (cycle_arbitration (world_tripped_and_fresh RESET_ACTION_value 1 200 120)
      (Or.inl (by decide)) (by decide)).2.2.2.2.2.1⟩

/-- C16: for every call of `info_display` with state `s` and remembered previous
state `p`: when `s` differs from `p` or `s = STARTUP`, the display is cleared and
the one message of `s` printed, and nothing else changes but the remembered
state; otherwise nothing is written; so something is written exactly when `s`
differs from `p` or `s = STARTUP`, and after the call the remembered state is
`s`.  Hence a call with state `STARTUP` while `STARTUP` is remembered (the very
first call) redraws, and the second of two consecutive calls with the same
non-`STARTUP` state changes nothing. -/
theorem info_display_redraw (w : World) :
    ((w.action.state ≠ w.previous_state ∨ w.action.state = .STARTUP) →
      info_display w =
        { w with
          previous_state := w.action.state
          trace := w.trace ++ [.LCD_clear, .LCD_printf (state_message w.action.state)] }) ∧
    (¬ (w.action.state ≠ w.previous_state ∨ w.action.state = .STARTUP) → info_display w = w) ∧
    (effects_of info_display w ≠ [] ↔
      (w.action.state ≠ w.previous_state ∨ w.action.state = .STARTUP)) ∧
    (info_display w).previous_state = w.action.state ∧
    (w.action.state = .STARTUP → w.previous_state = .STARTUP →
      effects_of info_display w = [.LCD_clear, .LCD_printf "Starting...\n"]) ∧
    (w.action.state ≠ .STARTUP → info_display (info_display w) = info_display w) := by
  have hsame : ¬ (w.action.state ≠ w.previous_state ∨ w.action.state = .STARTUP) →
      info_display w = w := by
    intro hn
    rw [not_or, not_not] at hn
    exact info_display_of_same w hn.1 hn.2
  have heff : (w.action.state ≠ w.previous_state ∨ w.action.state = .STARTUP) →
      effects_of info_display w = [.LCD_clear, .LCD_printf (state_message w.action.state)] := by
    intro h
    apply effects_of_append
    rw [info_display_of_redraw w h]
  refine ⟨info_display_of_redraw w, hsame, ?_, ?_, ?_, ?_⟩
  · constructor
    · intro hne
      by_contra hn
      apply hne
      apply effects_of_append
      rw [hsame hn, List.append_nil]
    · intro h
      rw [heff h]
      simp
  · by_cases h : w.action.state ≠ w.previous_state ∨ w.action.state = .STARTUP
    · rw [info_display_of_redraw w h]
    · rw [hsame h]
      rw [not_or, not_not] at h
      exact h.1.symm
  · intro hs _
    rw [heff (Or.inr hs), hs]
    rfl
  · intro hs
    by_cases h : w.action.state ≠ w.previous_state ∨ w.action.state = .STARTUP
    · apply info_display_of_same
      · rw [info_display_of_redraw w h]
      · rw [info_display_of_redraw w h]
        exact hs
    · rw [hsame h]
      exact hsame h

/-- C16, at concrete inputs: the very first call, with state `STARTUP`, clears
the display and prints "Starting..."; with state `PIXYFOLLOWING` the first call
prints "Following..." and a second call right after it changes nothing. -/
theorem info_display_redraw_witness :
    effects_of info_display loop_entry_world = [.LCD_clear, .LCD_printf "Starting...\n"] ∧
    effects_of info_display (world_proposing ⟨.PIXYFOLLOWING, 140, 60, 0, 0⟩) =
      [.LCD_clear, .LCD_printf "Following...\n"] ∧
    info_display (info_display (world_proposing ⟨.PIXYFOLLOWING, 140, 60, 0, 0⟩)) =
      info_display (world_proposing ⟨.PIXYFOLLOWING, 140, 60, 0, 0⟩) :=
  ⟨(info_display_redraw loop_entry_world).2.2.2.2.1 rfl rfl,
   by decide,
   (info_display_redraw (world_proposing ⟨.PIXYFOLLOWING, 140, 60, 0, 0⟩)).2.2.2.2.2 (by decide)⟩

/-- C17 as stated fails for a centroid far outside the sensor frame: with no IR
tripped and a fresh observation of signature 1 at `pos.x = 40000`, the three
behaviours in their listed order leave `{PIXYFOLLOWING, -25596, 25796, 400, 400}`,
not `{PIXYFOLLOWING, 100 + (x - 160), 100 - (x - 160), 400, 400}`, whose speeds
39940 and -39740 no `signed short int` holds. -/
theorem listed_order_far_centroid_wraps :
    (world_observing RESET_ACTION_value 1 40000 120 true).sensor_data.left_IR = false ∧
    (world_observing RESET_ACTION_value 1 40000 120 true).sensor_data.right_IR = false ∧
    (world_observing RESET_ACTION_value 1 40000 120 true).pixy_has_data = true ∧
    (behaviours_in_listed_order (world_observing RESET_ACTION_value 1 40000 120 true)).action =
      ⟨.PIXYFOLLOWING, -25596, 25796, 400, 400⟩ ∧
    (behaviours_in_listed_order (world_observing RESET_ACTION_value 1 40000 120 true)).action ≠
      ⟨.PIXYFOLLOWING, 100 + (40000 - 160), 100 - (40000 - 160), 400, 400⟩ := by
  decide

/-- C17, amended: for every prior action and every snapshot, `cruise`, then
`pixy_process`, then `IR_avoid` leave an action that does not depend on the
prior action and equals `{AVOIDING,200,200,400,400}` if at least one IR is
tripped; otherwise, if the observation is fresh with signature 1,
`{PIXYFOLLOWING, L, R, 400, 400}` with `L`, `R` the values `100 + (x - 160)` and
`100 - (x - 160)` converted to `signed short int` (those integers themselves
whenever both lie in -32768..32767); otherwise `{PIXYFOLLOWING,100,100,400,400}`
if the observation is fresh with another signature; otherwise
`{CRUISING,100,100,400,400}`. -/
theorem behaviours_last_writer_wins (w : World) :
    (behaviours_in_listed_order w).action =
      (if w.sensor_data.left_IR = true ∨ w.sensor_data.right_IR = true then
        { state := .AVOIDING, speed_L := 200, speed_R := 200, accel_L := 400, accel_R := 400 }
      else if w.pixy_has_data = true then
        if w.sensor_data.pixy_data.signum = 1 then
          { state := .PIXYFOLLOWING
            speed_L := toShort (100 + (w.sensor_data.pixy_data.pos.x - 160))
            speed_R := toShort (100 - (w.sensor_data.pixy_data.pos.x - 160))
            accel_L := 400, accel_R := 400 }
        else
          { state := .PIXYFOLLOWING, speed_L := 100, speed_R := 100, accel_L := 400,
            accel_R := 400 }
      else
        { state := .CRUISING, speed_L := 100, speed_R := 100, accel_L := 400,
          accel_R := 400 }) ∧
    (∀ a : MOTOR_ACTION,
      (behaviours_in_listed_order { w with action := a }).action =
        (behaviours_in_listed_order w).action) ∧
    ((-32768 ≤ 100 + (w.sensor_data.pixy_data.pos.x - 160) ∧
        100 + (w.sensor_data.pixy_data.pos.x - 160) ≤ 32767 ∧
        -32768 ≤ 100 - (w.sensor_data.pixy_data.pos.x - 160) ∧
        100 - (w.sensor_data.pixy_data.pos.x - 160) ≤ 32767) →
      w.sensor_data.left_IR = false → w.sensor_data.right_IR = false →
      w.pixy_has_data = true → w.sensor_data.pixy_data.signum = 1 →
      (behaviours_in_listed_order w).action =
        { state := .PIXYFOLLOWING
          speed_L := 100 + (w.sensor_data.pixy_data.pos.x - 160)
          speed_R := 100 - (w.sensor_data.pixy_data.pos.x - 160)
          accel_L := 400, accel_R := 400 }) := by
  refine ⟨behaviours_in_listed_order_action w, fun a => ?_, ?_⟩
  · rw [behaviours_in_listed_order_action w, behaviours_in_listed_order_action]
  · rintro ⟨h1, h2, h3, h4⟩ hl hr hf hs
    rw [behaviours_in_listed_order_action w]
    simp [hl, hr, hf, hs, toShort_of_fits _ h1 h2, toShort_of_fits _ h3 h4]

/-- C17, at concrete inputs: the four rows of the fold for centroid (200,120). -/
theorem behaviours_last_writer_wins_witness :
    (behaviours_in_listed_order
      { world_sensing RESET_ACTION_value false true with pixy_has_data := true }).action =
      ⟨.AVOIDING, 200, 200, 400, 400⟩ ∧
    (behaviours_in_listed_order (world_observing RESET_ACTION_value 1 200 120 true)).action =
      ⟨.PIXYFOLLOWING, 140, 60, 400, 400⟩ ∧
    (behaviours_in_listed_order (world_observing RESET_ACTION_value 2 200 120 true)).action =
      ⟨.PIXYFOLLOWING, 100, 100, 400, 400⟩ ∧
    (behaviours_in_listed_order (world_observing RESET_ACTION_value 1 200 120 false)).action =
      ⟨.CRUISING, 100, 100, 400, 400⟩ :=
  ⟨(behaviours_last_writer_wins
      { world_sensing RESET_ACTION_value false true with pixy_has_data := true }).1,
   (behaviours_last_writer_wins (world_observing RESET_ACTION_value 1 200 120 true)).2.2
      (by decide) rfl rfl rfl rfl,
   (behaviours_last_writer_wins (world_observing RESET_ACTION_value 2 200 120 true)).1,
   (behaviours_last_writer_wins (world_observing RESET_ACTION_value 1 200 120 false)).1⟩

/-- C18: for every finite sequence of proposed actions `a_1..a_n` fed to `act`
from the initial gate state, with `a_0` the reset action: the effects of the run
are the Dispatcher calls for exactly those `a_i` that differ from `a_(i-1)`, in
order; the number of dispatches is the number of such indices; each dispatched
action differs from the one dispatched before it (and the first from the reset
action); and at every step `i` the call dispatches (with the values of `a_i`) if
and only if `a_i` differs from `a_(i-1)`, and afterwards the stored previous
action is `a_i`. -/
theorem act_run_jitter_suppression (w : World) (as : List MOTOR_ACTION)
    (hinit : w.previous_action = RESET_ACTION_value) :
    (feed as w).trace =
      w.trace ++ dispatch_effects (changed_actions RESET_ACTION_value as) ∧
    dispatch_count (feed as w).trace =
      dispatch_count w.trace + (changed_actions RESET_ACTION_value as).length ∧
    List.Chain (fun x y => x ≠ y) RESET_ACTION_value (changed_actions RESET_ACTION_value as) ∧
    ∀ (pre post : List MOTOR_ACTION) (a : MOTOR_ACTION), as = pre ++ a :: post →
      (feed (pre ++ [a]) w).previous_action = a ∧
      (a ≠ last_proposal RESET_ACTION_value pre →
        (feed (pre ++ [a]) w).trace =
          (feed pre w).trace ++ [.STEPPER_set_accel2 a.accel_L a.accel_R,
                                 .STEPPER_runn a.speed_L a.speed_R]) ∧
      (a = last_proposal RESET_ACTION_value pre →
        (feed (pre ++ [a]) w).trace = (feed pre w).trace) ∧
      (dispatch_count (feed (pre ++ [a]) w).trace = dispatch_count (feed pre w).trace + 1 ↔
        a ≠ last_proposal RESET_ACTION_value pre) := by
  have ht := feed_trace as w
  rw [hinit] at ht
  refine ⟨ht, ?_, changed_actions_chain as _, ?_⟩
  · rw [ht]
    simp only [dispatch_count, List.countP_append]
    have := dispatch_count_dispatch_effects (changed_actions RESET_ACTION_value as)
    simp only [dispatch_count] at this
    rw [this]
  · intro pre post a _
    have hprev : (feed pre w).previous_action = last_proposal RESET_ACTION_value pre := by
      rw [feed_previous_action, hinit]
    have hne : a ≠ last_proposal RESET_ACTION_value pre →
        (feed (pre ++ [a]) w).trace =
          (feed pre w).trace ++ [.STEPPER_set_accel2 a.accel_L a.accel_R,
                                 .STEPPER_runn a.speed_L a.speed_R] := by
      intro h
      rw [feed_snoc, propose_of_ne a _ (by rw [hprev]; exact h)]
    have heq : a = last_proposal RESET_ACTION_value pre →
        (feed (pre ++ [a]) w).trace = (feed pre w).trace := by
      intro h
      rw [feed_snoc, propose_of_eq a _ (by rw [hprev]; exact h)]
    refine ⟨?_, hne, heq, ?_⟩
    · rw [feed_snoc, propose_previous_action]
    · constructor
      · intro hcount h
        rw [heq h] at hcount
        omega
      · intro h
        rw [hne h]
        simp [dispatch_count, List.countP_append, List.countP_cons]

/-- C18, at a concrete input: the proposals reset, F, F, G, G, F (with
`F = {PIXYFOLLOWING,140,60,0,0}`, `G = {PIXYFOLLOWING,100,100,0,0}`) fed from the
loop-entry world are dispatched three times: F, G, F. -/
theorem act_run_jitter_suppression_witness :
    (feed [RESET_ACTION_value, ⟨.PIXYFOLLOWING, 140, 60, 0, 0⟩, ⟨.PIXYFOLLOWING, 140, 60, 0, 0⟩,
        ⟨.PIXYFOLLOWING, 100, 100, 0, 0⟩, ⟨.PIXYFOLLOWING, 100, 100, 0, 0⟩,
        ⟨.PIXYFOLLOWING, 140, 60, 0, 0⟩] loop_entry_world).trace =
      [.STEPPER_set_accel2 0 0, .STEPPER_runn 140 60,
       .STEPPER_set_accel2 0 0, .STEPPER_runn 100 100,
       .STEPPER_set_accel2 0 0, .STEPPER_runn 140 60] :=
  (act_run_jitter_suppression loop_entry_world
    [RESET_ACTION_value, ⟨.PIXYFOLLOWING, 140, 60, 0, 0⟩, ⟨.PIXYFOLLOWING, 140, 60, 0, 0⟩,
      ⟨.PIXYFOLLOWING, 100, 100, 0, 0⟩, ⟨.PIXYFOLLOWING, 100, 100, 0, 0⟩,
      ⟨.PIXYFOLLOWING, 140, 60, 0, 0⟩] rfl).1

/-- C19: in the control loop as written (`__RESET_ACTION`, then again and again
`IR_sense`, `pixy_process`, `act`, `info_display`), whatever the drivers deliver
before each call and however many calls have been made, `action.accel_L` and
`action.accel_R` are 0 and `action.state` is `STARTUP` or `PIXYFOLLOWING`; no
effect since loop entry writes an acceleration field, and every
`STEPPER_set_accel2` call the loop has made passes the pair (0, 0). -/
theorem loop_accel_never_written (w : World) (is : List Inputs) :
    (CBOT_main_run is w).2.action.accel_L = 0 ∧
    (CBOT_main_run is w).2.action.accel_R = 0 ∧
    ((CBOT_main_run is w).2.action.state = .STARTUP ∨
      (CBOT_main_run is w).2.action.state = .PIXYFOLLOWING) ∧
    ∃ l : List Effect,
      (CBOT_main_run is w).2.trace = (__RESET_ACTION w).trace ++ l ∧
      (∀ aL aR : Nat, Effect.STEPPER_set_accel2 aL aR ∈ l → aL = 0 ∧ aR = 0) ∧
      (∀ v : Nat, Effect.write_accel_L v ∉ l ∧ Effect.write_accel_R v ∉ l) := by
  have h0 : accel_invariant (__RESET_ACTION w).trace (__RESET_ACTION w) := by
    refine ⟨?_, ?_, ?_, [], by rw [List.append_nil], ?_⟩
    · rw [RESET_ACTION_eq]
      rfl
    · rw [RESET_ACTION_eq]
      rfl
    · left
      rw [RESET_ACTION_eq]
      rfl
    · intro e he
      cases he
  have h := accel_invariant_loop_run (__RESET_ACTION w).trace is (.at_IR_sense, __RESET_ACTION w) h0
  obtain ⟨h1, h2, h3, l, hl, hq⟩ := h
  refine ⟨h1, h2, h3, l, hl, ?_, ?_⟩
  · intro aL aR hmem
    have := hq _ hmem
    simpa [Effect.accel_quiet] using this
  · intro v
    constructor
    · intro hmem
      have := hq _ hmem
      simp [Effect.accel_quiet] at this
    · intro hmem
      have := hq _ hmem
      simp [Effect.accel_quiet] at this

/-- C19, at a concrete input: from the loop-entry world, one pass in which a
fresh observation of signature 1 at (200,120) is delivered before `pixy_process`
dispatches `STEPPER_set_accel2(0, 0)` and `STEPPER_runn(140, 60)`, and the
accelerations are 0 afterwards. -/
theorem loop_accel_never_written_witness :
    (CBOT_main_run
      [⟨false, false, false, ⟨1, ⟨200, 120⟩, ⟨30, 20⟩⟩, true⟩,
       ⟨false, false, false, ⟨1, ⟨200, 120⟩, ⟨30, 20⟩⟩, true⟩,
       ⟨false, false, false, ⟨1, ⟨200, 120⟩, ⟨30, 20⟩⟩, false⟩,
       ⟨false, false, false, ⟨1, ⟨200, 120⟩, ⟨30, 20⟩⟩, false⟩] loop_entry_world).2.action.accel_L =
      0 ∧
    (effects_of
      (fun w => (CBOT_main_run
        [⟨false, false, false, ⟨1, ⟨200, 120⟩, ⟨30, 20⟩⟩, true⟩,
         ⟨false, false, false, ⟨1, ⟨200, 120⟩, ⟨30, 20⟩⟩, true⟩,
         ⟨false, false, false, ⟨1, ⟨200, 120⟩, ⟨30, 20⟩⟩, false⟩,
         ⟨false, false, false, ⟨1, ⟨200, 120⟩, ⟨30, 20⟩⟩, false⟩] w).2)
      loop_entry_world).filter Effect.isActuatorCall =
      [.STEPPER_set_accel2 0 0, .STEPPER_runn 140 60] :=
  ⟨(loop_accel_never_written loop_entry_world
      [⟨false, false, false, ⟨1, ⟨200, 120⟩, ⟨30, 20⟩⟩, true⟩,
       ⟨false, false, false, ⟨1, ⟨200, 120⟩, ⟨30, 20⟩⟩, true⟩,
       ⟨false, false, false, ⟨1, ⟨200, 120⟩, ⟨30, 20⟩⟩, false⟩,
       ⟨false, false, false, ⟨1, ⟨200, 120⟩, ⟨30, 20⟩⟩, false⟩]).1,
   by decide⟩

/-- C20: none of `cruise`, `pixy_process`, `IR_avoid` writes `state = STARTUP`:
no call of one of them has a write of `STARTUP` among its effects; a behaviour
that fires leaves the state different from `STARTUP`, one that does not fire
leaves the action as it was; so for every world and every finite sequence of
these behaviours, in any order, a state that is not `STARTUP` before the
sequence is not `STARTUP` after it. -/
theorem startup_never_reentered (bs : List Behaviour) (w : World) :
    (∀ b : Behaviour, Effect.write_state .STARTUP ∉ effects_of b.call w) ∧
    (∀ b : Behaviour, b.fires w = true → (b.call w).action.state ≠ .STARTUP) ∧
    (∀ b : Behaviour, b.fires w = false → (b.call w).action = w.action) ∧
    (w.action.state ≠ .STARTUP → (call_behaviours bs w).action.state ≠ .STARTUP) := by
  refine ⟨fun b => ?_, fun b => ?_, fun b => ?_, call_behaviours_keeps_started bs w⟩
  · obtain ⟨l, ht, hn, -⟩ := behaviour_call_cases b w
    rw [effects_of_append b.call w l ht]
    exact hn
  · exact (behaviour_call_cases b w).choose_spec.2.2.1
  · exact (behaviour_call_cases b w).choose_spec.2.2.2

/-- C20, at a concrete input: from `{PIXYFOLLOWING, 140, 60, 0, 0}` with the right
IR tripped and a fresh observation, the sequence `IR_avoid`, `pixy_process`,
`cruise`, `pixy_process` ends in state `CRUISING`, not `STARTUP`. -/
theorem startup_never_reentered_witness :
    (call_behaviours [.IR_avoid, .pixy_process, .cruise, .pixy_process]
      { world_sensing ⟨.PIXYFOLLOWING, 140, 60, 0, 0⟩ false true with
        pixy_has_data := true }).action.state ≠ .STARTUP :=
  (startup_never_reentered [.IR_avoid, .pixy_process, .cruise, .pixy_process]
    { world_sensing ⟨.PIXYFOLLOWING, 140, 60, 0, 0⟩ false true with
      pixy_has_data := true }).2.2.2 (by decide)

/-- C21: for every fresh observation with signature 1 whose centroid x lies in
the sensor frame 0..319, `pixy_process` stores in `speed_L` and `speed_R` the
exact integers `100 + (x - 160)` and `100 - (x - 160)`; they satisfy
`-60 ≤ speed_L ≤ 259`, `-59 ≤ speed_R ≤ 260` and `speed_L + speed_R = 200`;
converting them to `signed short int` changes nothing, and neither do the `int`
computations of `coordX`, `turn` and the two sums on the way. -/
theorem pixy_process_in_frame_no_wraparound (w : World) (hfresh : w.pixy_has_data = true)
    (hsig : w.sensor_data.pixy_data.signum = 1)
    (hlo : 0 ≤ w.sensor_data.pixy_data.pos.x) (hhi : w.sensor_data.pixy_data.pos.x ≤ 319) :
    (pixy_process w).action.speed_L = 100 + (w.sensor_data.pixy_data.pos.x - 160) ∧
    (pixy_process w).action.speed_R = 100 - (w.sensor_data.pixy_data.pos.x - 160) ∧
    -60 ≤ (pixy_process w).action.speed_L ∧ (pixy_process w).action.speed_L ≤ 259 ∧
    -59 ≤ (pixy_process w).action.speed_R ∧ (pixy_process w).action.speed_R ≤ 260 ∧
    (pixy_process w).action.speed_L + (pixy_process w).action.speed_R = 200 ∧
    toShort (100 + (w.sensor_data.pixy_data.pos.x - 160)) =
      100 + (w.sensor_data.pixy_data.pos.x - 160) ∧
    toShort (100 - (w.sensor_data.pixy_data.pos.x - 160)) =
      100 - (w.sensor_data.pixy_data.pos.x - 160) ∧
    toInt (w.sensor_data.pixy_data.pos.x - 160) = w.sensor_data.pixy_data.pos.x - 160 ∧
    toInt (1 * (w.sensor_data.pixy_data.pos.x - 160)) = w.sensor_data.pixy_data.pos.x - 160 ∧
    toInt (100 + (w.sensor_data.pixy_data.pos.x - 160)) =
      100 + (w.sensor_data.pixy_data.pos.x - 160) ∧
    toInt (100 - (w.sensor_data.pixy_data.pos.x - 160)) =
      100 - (w.sensor_data.pixy_data.pos.x - 160) ∧
    Effect.write_speed_L (100 + (w.sensor_data.pixy_data.pos.x - 160)) ∈
      effects_of pixy_process w ∧
    Effect.write_speed_R (100 - (w.sensor_data.pixy_data.pos.x - 160)) ∈
      effects_of pixy_process w := by
  have hL : toShort (100 + (w.sensor_data.pixy_data.pos.x - 160)) =
      100 + (w.sensor_data.pixy_data.pos.x - 160) :=
    toShort_of_fits _ (by omega) (by omega)
  have hR : toShort (100 - (w.sensor_data.pixy_data.pos.x - 160)) =
      100 - (w.sensor_data.pixy_data.pos.x - 160) :=
    toShort_of_fits _ (by omega) (by omega)
  have hsL : (pixy_process w).action.speed_L = 100 + (w.sensor_data.pixy_data.pos.x - 160) := by
    rw [pixy_process_of_fresh_match w hfresh hsig]
    exact hL
  have hsR : (pixy_process w).action.speed_R = 100 - (w.sensor_data.pixy_data.pos.x - 160) := by
    rw [pixy_process_of_fresh_match w hfresh hsig]
    exact hR
  have he := effects_of_append pixy_process w _
    (show (pixy_process w).trace = w.trace ++ _ by rw [pixy_process_of_fresh_match w hfresh hsig])
  refine ⟨hsL, hsR, by omega, by omega, by omega, by omega, by omega, hL, hR,
    toShort_of_fits _ (by omega) (by omega), ?_, hL, hR, ?_, ?_⟩
  · rw [one_mul]
    exact toShort_of_fits _ (by omega) (by omega)
  · rw [he, hL]
    simp
  · rw [he, hR]
    simp

/-- C21, at the two ends of the frame: a fresh observation of signature 1 at
x = 0 gives speeds (-60, 260), at x = 319 speeds (259, -59). -/
theorem pixy_process_in_frame_no_wraparound_witness :
    ((pixy_process (world_observing RESET_ACTION_value 1 0 120 true)).action.speed_L = -60 ∧
      (pixy_process (world_observing RESET_ACTION_value 1 0 120 true)).action.speed_R = 260) ∧
    ((pixy_process (world_observing RESET_ACTION_value 1 319 120 true)).action.speed_L = 259 ∧
      (pixy_process (world_observing RESET_ACTION_value 1 319 120 true)).action.speed_R = -59) :=
  ⟨⟨(pixy_process_in_frame_no_wraparound (world_observing RESET_ACTION_value 1 0 120 true)
        rfl rfl (by decide) (by decide)).1,
    (pixy_process_in_frame_no_wraparound (world_observing RESET_ACTION_value 1 0 120 true)
        rfl rfl (by decide) (by decide)).2.1⟩,
   ⟨(pixy_process_in_frame_no_wraparound (world_observing RESET_ACTION_value 1 319 120 true)
        rfl rfl (by decide) (by decide)).1,
    (pixy_process_in_frame_no_wraparound (world_observing RESET_ACTION_value 1 319 120 true)
        rfl rfl (by decide) (by decide)).2.1⟩⟩

end PixyBoT
